import Mathlib

/-!
Shallow embedding of the NVRHI validation device decorator
(`src/validation/validation-device.cpp`) and proofs about its
validation behavior.  Resource-descriptor structures mirror the C++
descriptor types; diagnostic sink invocations are modelled as a list of
structured messages (one list element per `IMessageCallback::message`
call), and calls into the wrapped backend device's corresponding method
are counted explicitly.
-/

namespace NvrhiValidation

/-- Graphics backend identity, as returned by `getGraphicsAPI`. -/
inductive GraphicsAPI where
  | D3D11
  | D3D12
  | VULKAN
deriving DecidableEq, Repr

/-- `nvrhi::TextureDimension`. -/
inductive TextureDimension where
  | Unknown
  | Texture1D
  | Texture1DArray
  | Texture2D
  | Texture2DArray
  | TextureCube
  | TextureCubeArray
  | Texture2DMS
  | Texture2DMSArray
  | Texture3D
deriving DecidableEq, Repr

/-- `nvrhi::CpuAccessMode`. -/
inductive CpuAccessMode where
  | none
  | read
  | write
deriving DecidableEq, Repr

/-- `nvrhi::ResourceType` of binding layout / binding set items. -/
inductive ResourceType where
  | None
  | Texture_SRV
  | Texture_UAV
  | TypedBuffer_SRV
  | TypedBuffer_UAV
  | StructuredBuffer_SRV
  | StructuredBuffer_UAV
  | RawBuffer_SRV
  | RawBuffer_UAV
  | ConstantBuffer
  | VolatileConstantBuffer
  | Sampler
  | RayTracingAccelStruct
  | PushConstants
  | SamplerFeedbackTexture_UAV
  | Count
deriving DecidableEq, Repr

/-- Register class of a graphics binding (`GraphicsResourceType`). -/
inductive GraphicsResourceType where
  | SRV
  | Sampler
  | UAV
  | CB
deriving DecidableEq, Repr

/-- Shader stages (`nvrhi::ShaderType`); visibility masks are modelled as
lists of stages. -/
inductive ShaderType where
  | None
  | Vertex
  | Hull
  | Domain
  | Geometry
  | Pixel
  | Amplification
  | Mesh
  | Compute
deriving DecidableEq, Repr

/-- Texture/buffer formats; only equality with `UNKNOWN` is inspected by the
validation code modelled here. -/
inductive Format where
  | UNKNOWN
  | RGBA8_UNORM
  | RGBA32_FLOAT
deriving DecidableEq, Repr

/-- Resource states; `0` stands for `ResourceStates::Unknown`. -/
abbrev ResourceStates := Nat

/-- `ResourceStates::Unknown`. -/
def ResourceStates.Unknown : ResourceStates := 0

/-- Device capabilities answered by the wrapped device's
`getGraphicsAPI` / `queryFeatureSupport`. -/
structure DeviceCaps where
  graphicsAPI : GraphicsAPI
  virtualResources : Bool
  constantBufferRanges : Bool
deriving DecidableEq, Repr

/-- Severity of a diagnostic message. -/
inductive Severity where
  | warning
  | error
deriving DecidableEq, Repr

/-- `nvrhi::BindingLocation`-like tuple used by the binding summary engine:
{register space, slot, array element, register class}. -/
structure BindingLocation where
  registerSpace : Nat
  slot : Nat
  arrayElement : Nat
  type : GraphicsResourceType
deriving DecidableEq, Repr

/-- Tags distinguishing the distinct message texts the validation layer can
produce; one tag per message. -/
inductive FindingTag where
  | unknownDimension
  | zeroExtent
  | badHeight
  | badDepth
  | badArraySize
  | badSampleCount
  | msaaUAV
  | virtualUnsupported
  | badInitialState
  | volatileNotConstant
  | volatileZeroVersions
  | volatileBadUsage
  | volatileCpuAccess
  | nullLayoutForSet
  | bindlessLayoutForSet
  | noneInBindingSet
  | nullResource
  | subresourcesDontIntersect
  | textureNotUAV
  | incompatibleDimension
  | noTypedViews
  | noStructStride
  | noRawViews
  | noUAVs
  | notConstantBuffer
  | volatileAsRegular
  | regularAsVolatile
  | bothFormatsUnknown
  | cbRangesUnsupported
  | cbBadOffset
  | cbBadSize
  | volatilePartialBind
  | pushConstantsInTable
  | pushConstantsWithResource
  | pushConstantsZeroSize
  | tlasCompaction
  | updateAndCompaction
  | doesNotFit
  | badAlignment
  | notVirtual
  | nullTexture
  | nullHeap
  | apiMismatch
  | mixedRegisterSpaceSemantics
  | nullLayoutHandle
  | duplicateBindings
  | overlappingBindings
  | invalidLayoutItemType
  | declaredNotBound
  | boundNotDeclared
  | setDuplicates
  | unrecognizedResourceType
  | registerSpaceTooLarge
  | registerSpaceReused
  | tooManyPushConstantBlocks
  | pushConstantSizeExceeded
deriving DecidableEq, Repr

/-- One structured diagnostic finding: a message tag together with the
structured data embedded in the rendered message text (unused payload
fields stay at their neutral values). -/
structure Finding where
  tag : FindingTag
  locs : List BindingLocation
  duplicateEntries : List (ShaderType × List BindingLocation)
  overlapEntries : List (ShaderType × List GraphicsResourceType)
  index : Nat
  itemType : ResourceType
deriving DecidableEq, Repr

/-- A finding that carries only its tag. -/
def mkTagFinding (t : FindingTag) : Finding :=
  ⟨t, [], [], [], 0, ResourceType.None⟩

/-- The finding tagged `unknownDimension`. -/
def Finding.unknownDimension : Finding := mkTagFinding FindingTag.unknownDimension

/-- The finding tagged `zeroExtent`. -/
def Finding.zeroExtent : Finding := mkTagFinding FindingTag.zeroExtent

/-- The finding tagged `badHeight`. -/
def Finding.badHeight : Finding := mkTagFinding FindingTag.badHeight

/-- The finding tagged `badDepth`. -/
def Finding.badDepth : Finding := mkTagFinding FindingTag.badDepth

/-- The finding tagged `badArraySize`. -/
def Finding.badArraySize : Finding := mkTagFinding FindingTag.badArraySize

/-- The finding tagged `badSampleCount`. -/
def Finding.badSampleCount : Finding := mkTagFinding FindingTag.badSampleCount

/-- The finding tagged `msaaUAV`. -/
def Finding.msaaUAV : Finding := mkTagFinding FindingTag.msaaUAV

/-- The finding tagged `virtualUnsupported`. -/
def Finding.virtualUnsupported : Finding := mkTagFinding FindingTag.virtualUnsupported

/-- The finding tagged `badInitialState`. -/
def Finding.badInitialState : Finding := mkTagFinding FindingTag.badInitialState

/-- The finding tagged `volatileNotConstant`. -/
def Finding.volatileNotConstant : Finding := mkTagFinding FindingTag.volatileNotConstant

/-- The finding tagged `volatileZeroVersions`. -/
def Finding.volatileZeroVersions : Finding := mkTagFinding FindingTag.volatileZeroVersions

/-- The finding tagged `volatileBadUsage`. -/
def Finding.volatileBadUsage : Finding := mkTagFinding FindingTag.volatileBadUsage

/-- The finding tagged `volatileCpuAccess`. -/
def Finding.volatileCpuAccess : Finding := mkTagFinding FindingTag.volatileCpuAccess

/-- The finding tagged `nullLayoutForSet`. -/
def Finding.nullLayoutForSet : Finding := mkTagFinding FindingTag.nullLayoutForSet

/-- The finding tagged `bindlessLayoutForSet`. -/
def Finding.bindlessLayoutForSet : Finding := mkTagFinding FindingTag.bindlessLayoutForSet

/-- The finding tagged `noneInBindingSet`. -/
def Finding.noneInBindingSet : Finding := mkTagFinding FindingTag.noneInBindingSet

/-- The finding tagged `nullResource`. -/
def Finding.nullResource : Finding := mkTagFinding FindingTag.nullResource

/-- The finding tagged `subresourcesDontIntersect`. -/
def Finding.subresourcesDontIntersect : Finding := mkTagFinding FindingTag.subresourcesDontIntersect

/-- The finding tagged `textureNotUAV`. -/
def Finding.textureNotUAV : Finding := mkTagFinding FindingTag.textureNotUAV

/-- The finding tagged `incompatibleDimension`. -/
def Finding.incompatibleDimension : Finding := mkTagFinding FindingTag.incompatibleDimension

/-- The finding tagged `noTypedViews`. -/
def Finding.noTypedViews : Finding := mkTagFinding FindingTag.noTypedViews

/-- The finding tagged `noStructStride`. -/
def Finding.noStructStride : Finding := mkTagFinding FindingTag.noStructStride

/-- The finding tagged `noRawViews`. -/
def Finding.noRawViews : Finding := mkTagFinding FindingTag.noRawViews

/-- The finding tagged `noUAVs`. -/
def Finding.noUAVs : Finding := mkTagFinding FindingTag.noUAVs

/-- The finding tagged `notConstantBuffer`. -/
def Finding.notConstantBuffer : Finding := mkTagFinding FindingTag.notConstantBuffer

/-- The finding tagged `volatileAsRegular`. -/
def Finding.volatileAsRegular : Finding := mkTagFinding FindingTag.volatileAsRegular

/-- The finding tagged `regularAsVolatile`. -/
def Finding.regularAsVolatile : Finding := mkTagFinding FindingTag.regularAsVolatile

/-- The finding tagged `bothFormatsUnknown`. -/
def Finding.bothFormatsUnknown : Finding := mkTagFinding FindingTag.bothFormatsUnknown

/-- The finding tagged `cbRangesUnsupported`. -/
def Finding.cbRangesUnsupported : Finding := mkTagFinding FindingTag.cbRangesUnsupported

/-- The finding tagged `cbBadOffset`. -/
def Finding.cbBadOffset : Finding := mkTagFinding FindingTag.cbBadOffset

/-- The finding tagged `cbBadSize`. -/
def Finding.cbBadSize : Finding := mkTagFinding FindingTag.cbBadSize

/-- The finding tagged `volatilePartialBind`. -/
def Finding.volatilePartialBind : Finding := mkTagFinding FindingTag.volatilePartialBind

/-- The finding tagged `pushConstantsInTable`. -/
def Finding.pushConstantsInTable : Finding := mkTagFinding FindingTag.pushConstantsInTable

/-- The finding tagged `pushConstantsWithResource`. -/
def Finding.pushConstantsWithResource : Finding := mkTagFinding FindingTag.pushConstantsWithResource

/-- The finding tagged `pushConstantsZeroSize`. -/
def Finding.pushConstantsZeroSize : Finding := mkTagFinding FindingTag.pushConstantsZeroSize

/-- The finding tagged `tlasCompaction`. -/
def Finding.tlasCompaction : Finding := mkTagFinding FindingTag.tlasCompaction

/-- The finding tagged `updateAndCompaction`. -/
def Finding.updateAndCompaction : Finding := mkTagFinding FindingTag.updateAndCompaction

/-- The finding tagged `doesNotFit`. -/
def Finding.doesNotFit : Finding := mkTagFinding FindingTag.doesNotFit

/-- The finding tagged `badAlignment`. -/
def Finding.badAlignment : Finding := mkTagFinding FindingTag.badAlignment

/-- The finding tagged `notVirtual`. -/
def Finding.notVirtual : Finding := mkTagFinding FindingTag.notVirtual

/-- The finding tagged `nullTexture`. -/
def Finding.nullTexture : Finding := mkTagFinding FindingTag.nullTexture

/-- The finding tagged `nullHeap`. -/
def Finding.nullHeap : Finding := mkTagFinding FindingTag.nullHeap

/-- The finding tagged `apiMismatch`. -/
def Finding.apiMismatch : Finding := mkTagFinding FindingTag.apiMismatch

/-- The finding tagged `mixedRegisterSpaceSemantics`. -/
def Finding.mixedRegisterSpaceSemantics : Finding := mkTagFinding FindingTag.mixedRegisterSpaceSemantics

/-- The finding tagged `nullLayoutHandle` with its payload. -/
def Finding.nullLayoutHandle (slot : Nat) : Finding :=
  ⟨FindingTag.nullLayoutHandle, [], [], [], slot, ResourceType.None⟩

/-- The finding tagged `duplicateBindings` with its payload. -/
def Finding.duplicateBindings (entries : List (ShaderType × List BindingLocation)) : Finding :=
  ⟨FindingTag.duplicateBindings, [], entries, [], 0, ResourceType.None⟩

/-- The finding tagged `overlappingBindings` with its payload. -/
def Finding.overlappingBindings (entries : List (ShaderType × List GraphicsResourceType)) : Finding :=
  ⟨FindingTag.overlappingBindings, [], [], entries, 0, ResourceType.None⟩

/-- The finding tagged `invalidLayoutItemType` with its payload. -/
def Finding.invalidLayoutItemType (t : ResourceType) : Finding :=
  ⟨FindingTag.invalidLayoutItemType, [], [], [], 0, t⟩

/-- The finding tagged `declaredNotBound` with its payload. -/
def Finding.declaredNotBound (locs : List BindingLocation) : Finding :=
  ⟨FindingTag.declaredNotBound, locs, [], [], 0, ResourceType.None⟩

/-- The finding tagged `boundNotDeclared` with its payload. -/
def Finding.boundNotDeclared (locs : List BindingLocation) : Finding :=
  ⟨FindingTag.boundNotDeclared, locs, [], [], 0, ResourceType.None⟩

/-- The finding tagged `setDuplicates` with its payload. -/
def Finding.setDuplicates (locs : List BindingLocation) : Finding :=
  ⟨FindingTag.setDuplicates, locs, [], [], 0, ResourceType.None⟩

/-- The finding tagged `unrecognizedResourceType` with its payload. -/
def Finding.unrecognizedResourceType (v : ResourceType) : Finding :=
  ⟨FindingTag.unrecognizedResourceType, [], [], [], 0, v⟩

/-- The finding tagged `registerSpaceTooLarge` with its payload. -/
def Finding.registerSpaceTooLarge (layoutIndex : Nat) : Finding :=
  ⟨FindingTag.registerSpaceTooLarge, [], [], [], layoutIndex, ResourceType.None⟩

/-- The finding tagged `registerSpaceReused` with its payload. -/
def Finding.registerSpaceReused (layoutIndex : Nat) : Finding :=
  ⟨FindingTag.registerSpaceReused, [], [], [], layoutIndex, ResourceType.None⟩

/-- The finding tagged `tooManyPushConstantBlocks` with its payload. -/
def Finding.tooManyPushConstantBlocks (n : Nat) : Finding :=
  ⟨FindingTag.tooManyPushConstantBlocks, [], [], [], n, ResourceType.None⟩

/-- The finding tagged `pushConstantSizeExceeded` with its payload. -/
def Finding.pushConstantSizeExceeded (n : Nat) : Finding :=
  ⟨FindingTag.pushConstantSizeExceeded, [], [], [], n, ResourceType.None⟩

/-- One invocation of the message sink; `findings` is the structured content
of the (possibly multi-line, aggregated) message text. -/
structure Msg where
  severity : Severity
  findings : List Finding
deriving DecidableEq, Repr

/-- A single error message holding one finding: one `error(...)` call. -/
def errMsg (f : Finding) : Msg := ⟨Severity.error, [f]⟩

/-- Generic result of a decorator operation: return value, the sink
invocations it performed, and the number of calls it made into the wrapped
device's corresponding method. -/
structure OpResult (α : Type) where
  ret : α
  msgs : List Msg
  backendCalls : Nat
deriving DecidableEq, Repr

/-! ### Unordered-set helpers (`SetDifference`, `SetIntersection`,
`SetUnionInplace` from the source), modelled over duplicate-free lists. -/

/-- `std::unordered_set::insert`: add an element unless already present. -/
def lsetInsert {α : Type} [DecidableEq α] (s : List α) (x : α) : List α :=
  if x ∈ s then s else s ++ [x]

/-- `SetDifference`: copy `a`, then erase every element of `b`. -/
def SetDifference {α : Type} [DecidableEq α] (a b : List α) : List α :=
  b.foldl (fun r x => r.erase x) a

/-- `SetIntersection`: insert into an empty result each element of `a` found
in `b`. -/
def SetIntersection {α : Type} [DecidableEq α] (a b : List α) : List α :=
  a.foldl (fun r x => if x ∈ b then lsetInsert r x else r) []

/-- `SetUnionInplace`: insert every element of `b` into `a`. -/
def SetUnionInplace {α : Type} [DecidableEq α] (a b : List α) : List α :=
  b.foldl lsetInsert a

/-! ### Resource descriptors -/

/-- `nvrhi::TextureDesc` (fields inspected by validation). -/
structure TextureDesc where
  dimension : TextureDimension
  width : Nat
  height : Nat
  depth : Nat
  arraySize : Nat
  mipLevels : Nat
  sampleCount : Nat
  isUAV : Bool
  isVirtual : Bool
  keepInitialState : Bool
  initialState : ResourceStates
deriving DecidableEq, Repr

/-- `nvrhi::BufferDesc` (fields inspected by validation). -/
structure BufferDesc where
  byteSize : Nat
  structStride : Nat
  format : Format
  canHaveUAVs : Bool
  canHaveTypedViews : Bool
  canHaveRawViews : Bool
  isVertexBuffer : Bool
  isIndexBuffer : Bool
  isConstantBuffer : Bool
  isVolatile : Bool
  isDrawIndirectArgs : Bool
  isAccelStructBuildInput : Bool
  isAccelStructStorage : Bool
  isShaderBindingTable : Bool
  isVirtual : Bool
  maxVersions : Nat
  cpuAccess : CpuAccessMode
  keepInitialState : Bool
  initialState : ResourceStates
deriving DecidableEq, Repr

/-- `rt::AccelStructBuildFlags` bit mask (the two flags validation reads). -/
structure AccelStructBuildFlags where
  allowUpdate : Bool
  allowCompaction : Bool
deriving DecidableEq, Repr

/-- `rt::AccelStructDesc` (fields inspected by validation). -/
structure AccelStructDesc where
  isTopLevel : Bool
  buildFlags : AccelStructBuildFlags
  topLevelMaxInstances : Nat
  isVirtual : Bool
deriving DecidableEq, Repr

/-- `nvrhi::HeapDesc`. -/
structure HeapDesc where
  capacity : Nat
deriving DecidableEq, Repr

/-- `nvrhi::MemoryRequirements`. -/
structure MemoryRequirements where
  size : Nat
  alignment : Nat
deriving DecidableEq, Repr

/-- A backend resource reachable from a binding item or creation call: either
a plain backend object or the decorator's acceleration-structure wrapper. -/
inductive Resource where
  | texture (desc : TextureDesc)
  | buffer (desc : BufferDesc)
  | sampler
  | accelStruct (desc : AccelStructDesc)
  | accelStructWrapper (underlying : Resource) (isTopLevel : Bool)
      (allowUpdate : Bool) (allowCompaction : Bool) (maxInstances : Nat)
deriving DecidableEq, Repr

/-- All `uint64_t` arithmetic in the memory-binding paths wraps modulo this. -/
def c_Uint64Modulus : Nat := 2 ^ 64

/-! ### Simple creation operations -/

/-- `DeviceWrapper::createTexture`: each failed check is one separate
`error(...)` call; the backend's `createTexture` runs only if no check
failed. -/
def createTexture (dev : DeviceCaps) (backend : TextureDesc → Option Nat)
    (d : TextureDesc) : OpResult (Option Nat) :=
  if d.dimension = TextureDimension.Unknown then
    ⟨none, [errMsg .unknownDimension], 0⟩
  else if d.width = 0 ∨ d.height = 0 ∨ d.depth = 0 ∨ d.arraySize = 0 ∨
      d.mipLevels = 0 then
    ⟨none, [errMsg .zeroExtent], 0⟩
  else
    let heightBad :=
      (match d.dimension with
        | .Texture1D | .Texture1DArray => true
        | _ => false) && d.height != 1
    let depthBad :=
      (match d.dimension with
        | .Texture1D | .Texture1DArray | .Texture2D | .Texture2DArray
        | .TextureCube | .TextureCubeArray | .Texture2DMS
        | .Texture2DMSArray => true
        | _ => false) && d.depth != 1
    let arraySizeBad :=
      match d.dimension with
        | .Texture1D | .Texture2D | .Texture2DMS | .Texture3D =>
          d.arraySize != 1
        | .TextureCube => d.arraySize != 6
        | .TextureCubeArray => d.arraySize % 6 != 0
        | _ => false
    let sampleCountBad :=
      match d.dimension with
        | .Texture1D | .Texture1DArray | .Texture2D | .Texture2DArray
        | .TextureCube | .TextureCubeArray | .Texture3D =>
          d.sampleCount != 1
        | .Texture2DMS | .Texture2DMSArray =>
          d.sampleCount != 2 && d.sampleCount != 4 && d.sampleCount != 8
        | _ => false
    let msaaUAVBad :=
      (match d.dimension with
        | .Texture2DMS | .Texture2DMSArray => true
        | _ => false) && d.isUAV
    let virtualBad := d.isVirtual && !dev.virtualResources
    let initialStateBad :=
      d.keepInitialState && d.initialState == ResourceStates.Unknown
    let msgs :=
      (if heightBad then [errMsg .badHeight] else []) ++
      (if depthBad then [errMsg .badDepth] else []) ++
      (if arraySizeBad then [errMsg .badArraySize] else []) ++
      (if sampleCountBad then [errMsg .badSampleCount] else []) ++
      (if msaaUAVBad then [errMsg .msaaUAV] else []) ++
      (if virtualBad then [errMsg .virtualUnsupported] else []) ++
      (if initialStateBad then [errMsg .badInitialState] else [])
    let anyErrors := heightBad || depthBad || arraySizeBad ||
      sampleCountBad || msaaUAVBad || virtualBad || initialStateBad
    if anyErrors then ⟨none, msgs, 0⟩
    else ⟨backend d, [], 1⟩

/-- `DeviceWrapper::createBuffer`: failed checks return immediately, each with
one `error(...)` call; the backend runs only when every check passed. -/
def createBuffer (dev : DeviceCaps) (backend : BufferDesc → Option Nat)
    (d : BufferDesc) : OpResult (Option Nat) :=
  if d.isVolatile && !d.isConstantBuffer then
    ⟨none, [errMsg .volatileNotConstant], 0⟩
  else if d.isVolatile && d.maxVersions == 0 then
    ⟨none, [errMsg .volatileZeroVersions], 0⟩
  else if d.isVolatile && (d.isVertexBuffer || d.isIndexBuffer ||
      d.isDrawIndirectArgs || d.canHaveUAVs || d.isAccelStructBuildInput ||
      d.isAccelStructStorage || d.isShaderBindingTable || d.isVirtual) then
    ⟨none, [errMsg .volatileBadUsage], 0⟩
  else if d.isVolatile && !(d.cpuAccess == CpuAccessMode.none) then
    ⟨none, [errMsg .volatileCpuAccess], 0⟩
  else if d.isVirtual && !dev.virtualResources then
    ⟨none, [errMsg .virtualUnsupported], 0⟩
  else if d.keepInitialState && d.initialState == ResourceStates.Unknown then
    ⟨none, [errMsg .badInitialState], 0⟩
  else ⟨backend d, [], 1⟩

/-- `DeviceWrapper::createAccelStruct`: the backend's `createAccelStruct` is
invoked first, unconditionally; the flag checks run on its non-null result,
and on success the handle is wrapped. -/
def createAccelStruct (backend : AccelStructDesc → Option Resource)
    (desc : AccelStructDesc) : OpResult (Option Resource) :=
  match backend desc with
  | Option.none => ⟨none, [], 1⟩
  | Option.some as =>
    if desc.buildFlags.allowCompaction && desc.isTopLevel then
      ⟨none, [errMsg .tlasCompaction], 1⟩
    else if desc.buildFlags.allowUpdate && desc.buildFlags.allowCompaction then
      ⟨none, [errMsg .updateAndCompaction], 1⟩
    else
      ⟨some (Resource.accelStructWrapper as desc.isTopLevel
          desc.buildFlags.allowUpdate desc.buildFlags.allowCompaction
          desc.topLevelMaxInstances), [], 1⟩

/-- `unwrapResource`: null passes through, an acceleration-structure wrapper
yields its underlying object, everything else passes through unchanged. -/
def unwrapResource : Option Resource → Option Resource
  | Option.none => none
  | Option.some r =>
    match r with
    | Resource.accelStructWrapper u _ _ _ _ => some u
    | _ => some r

/-- Observable outcome of a possibly non-terminating call, tracked with an
explicit recursion budget. -/
inductive ExecOutcome where
  | diverged
  | returned (r : Option Nat)
deriving DecidableEq, Repr

/-- `DeviceWrapper::createSamplerFeedbackForNativeTexture`: on a non-D3D12
backend it reports and returns null; on D3D12 the source calls **itself**
(line 309) rather than `m_Device->createSamplerFeedbackForNativeTexture`, so
the call never reaches the wrapped device for any recursion budget. -/
def createSamplerFeedbackForNativeTexture (dev : DeviceCaps) (fuel : Nat) :
    OpResult ExecOutcome :=
  if dev.graphicsAPI ≠ GraphicsAPI.D3D12 then
    ⟨ExecOutcome.returned none, [errMsg .apiMismatch], 0⟩
  else
    match fuel with
    | 0 => ⟨ExecOutcome.diverged, [], 0⟩
    | f + 1 => createSamplerFeedbackForNativeTexture dev f

/-! ### Memory binding -/

/-- `DeviceWrapper::bindTextureMemory`.  `offset`, `memReq.size` and
`heapDesc.capacity` are `uint64_t` in the source, so `offset + memReq.size`
wraps modulo `2^64` before the capacity comparison. -/
def bindTextureMemory (texture : Option TextureDesc) (heap : Option HeapDesc)
    (offset : Nat) (memReq : MemoryRequirements) (backendBind : Bool) :
    OpResult Bool :=
  match texture with
  | Option.none => ⟨false, [errMsg .nullTexture], 0⟩
  | Option.some textureDesc =>
    match heap with
    | Option.none => ⟨false, [errMsg .nullHeap], 0⟩
    | Option.some heapDesc =>
      if !textureDesc.isVirtual then ⟨false, [errMsg .notVirtual], 0⟩
      else if heapDesc.capacity < (offset + memReq.size) % c_Uint64Modulus then
        ⟨false, [errMsg .doesNotFit], 0⟩
      else if memReq.alignment != 0 && offset % memReq.alignment != 0 then
        ⟨false, [errMsg .badAlignment], 0⟩
      else ⟨backendBind, [], 1⟩

/-- `DeviceWrapper::bindBufferMemory`; same structure as texture binding. -/
def bindBufferMemory (buffer : Option BufferDesc) (heap : Option HeapDesc)
    (offset : Nat) (memReq : MemoryRequirements) (backendBind : Bool) :
    OpResult Bool :=
  match buffer with
  | Option.none => ⟨false, [errMsg .nullTexture], 0⟩
  | Option.some bufferDesc =>
    match heap with
    | Option.none => ⟨false, [errMsg .nullHeap], 0⟩
    | Option.some heapDesc =>
      if !bufferDesc.isVirtual then ⟨false, [errMsg .notVirtual], 0⟩
      else if heapDesc.capacity < (offset + memReq.size) % c_Uint64Modulus then
        ⟨false, [errMsg .doesNotFit], 0⟩
      else if memReq.alignment != 0 && offset % memReq.alignment != 0 then
        ⟨false, [errMsg .badAlignment], 0⟩
      else ⟨backendBind, [], 1⟩

/-- `DeviceWrapper::bindAccelStructMemory`: after the null checks the wrapper
is unwrapped, then the same fit and alignment checks run.  The source's
parameter is statically an acceleration structure, so non-accel-struct
resources are unreachable there. -/
def bindAccelStructMemory (as : Option Resource) (heap : Option HeapDesc)
    (offset : Nat) (memReq : MemoryRequirements) (backendBind : Bool) :
    OpResult Bool :=
  match as with
  | Option.none => ⟨false, [errMsg .nullTexture], 0⟩
  | Option.some asResource =>
    match heap with
    | Option.none => ⟨false, [errMsg .nullHeap], 0⟩
    | Option.some heapDesc =>
      let unwrapped :=
        match asResource with
        | Resource.accelStructWrapper u _ _ _ _ => u
        | r => r
      match unwrapped with
      | Resource.accelStruct asDesc =>
        if !asDesc.isVirtual then ⟨false, [errMsg .notVirtual], 0⟩
        else if heapDesc.capacity < (offset + memReq.size) % c_Uint64Modulus then
          ⟨false, [errMsg .doesNotFit], 0⟩
        else if memReq.alignment != 0 && offset % memReq.alignment != 0 then
          ⟨false, [errMsg .badAlignment], 0⟩
        else ⟨backendBind, [], 1⟩
      | _ => ⟨false, [], 0⟩

/-! ### Binding summary engine -/

/-- Slot `Range` for one register class.  `add`, `empty` and `overlapsWith`
are translated from the source; the initial values (min above max, at the
`uint32_t` extremes) realize the spec's "empty exactly when no slot was ever
added". -/
structure Range where
  min : Nat
  max : Nat
deriving DecidableEq, Repr

/-- A `Range` before any slot is added: min initialized above max. -/
def Range.emptyRange : Range := ⟨4294967295, 0⟩

/-- `Range::add`. -/
def Range.add (r : Range) (item : Nat) : Range :=
  ⟨Nat.min r.min item, Nat.max r.max item⟩

/-- `Range::empty`: `min > max`. -/
def Range.empty (r : Range) : Bool := decide (r.max < r.min)

/-- `Range::overlapsWith`: both non-empty and the closed intervals
`[min, max]` intersect. -/
def Range.overlapsWith (r other : Range) : Bool :=
  !r.empty && !other.empty && decide (other.min ≤ r.max) &&
    decide (r.min ≤ other.max)

/-- `BindingSummary`: per-class slot ranges, the set of binding locations,
and the volatile-CB count. -/
structure BindingSummary where
  locations : List BindingLocation
  rangeSRV : Range
  rangeSampler : Range
  rangeUAV : Range
  rangeCB : Range
  numVolatileCBs : Nat
deriving DecidableEq, Repr

/-- `BindingSummary::any`. -/
def BindingSummary.any (s : BindingSummary) : Bool := !s.locations.isEmpty

/-- State threaded through summary filling: the summary being built, the
duplicate-location set, and the sink invocations made along the way. -/
structure SummaryState where
  bindings : BindingSummary
  duplicates : List BindingLocation
  msgs : List Msg
deriving DecidableEq, Repr

/-- A default-constructed summary state. -/
def SummaryState.initial : SummaryState :=
  ⟨⟨[], Range.emptyRange, Range.emptyRange, Range.emptyRange,
    Range.emptyRange, 0⟩, [], []⟩

/-- Modelled from the spec: the register class a default-constructed
`BindingLocation` carries before `UpdateBindingSummaryWithLocation`
classifies the item (the header defining the default is not among the
sources); it is only observable for items of invalid resource type. -/
def defaultGraphicsResourceType : GraphicsResourceType := GraphicsResourceType.SRV

/-- `UpdateBindingSummaryWithLocation`: classify the item's resource type
into a register class, extend that class's slot range, report invalid types
directly to the sink, and record the location (or a duplicate). -/
def UpdateBindingSummaryWithLocation (type : ResourceType)
    (location : BindingLocation) (st : SummaryState) : SummaryState :=
  let step :=
    match type with
    | ResourceType.Texture_SRV | ResourceType.TypedBuffer_SRV
    | ResourceType.StructuredBuffer_SRV | ResourceType.RawBuffer_SRV
    | ResourceType.RayTracingAccelStruct =>
      ({location with type := GraphicsResourceType.SRV},
       {st.bindings with rangeSRV := st.bindings.rangeSRV.add location.slot},
       ([] : List Msg))
    | ResourceType.Texture_UAV | ResourceType.TypedBuffer_UAV
    | ResourceType.StructuredBuffer_UAV | ResourceType.RawBuffer_UAV
    | ResourceType.SamplerFeedbackTexture_UAV =>
      ({location with type := GraphicsResourceType.UAV},
       {st.bindings with rangeUAV := st.bindings.rangeUAV.add location.slot},
       ([] : List Msg))
    | ResourceType.ConstantBuffer | ResourceType.VolatileConstantBuffer
    | ResourceType.PushConstants =>
      ({location with type := GraphicsResourceType.CB},
       {st.bindings with
          rangeCB := st.bindings.rangeCB.add location.slot,
          numVolatileCBs :=
            if type == ResourceType.VolatileConstantBuffer then
              st.bindings.numVolatileCBs + 1
            else st.bindings.numVolatileCBs},
       ([] : List Msg))
    | ResourceType.Sampler =>
      ({location with type := GraphicsResourceType.Sampler},
       {st.bindings with
          rangeSampler := st.bindings.rangeSampler.add location.slot},
       ([] : List Msg))
    | ResourceType.None | ResourceType.Count =>
      (location, st.bindings, [errMsg (Finding.invalidLayoutItemType type)])
  let location' := step.1
  let bindings' := step.2.1
  let newMsgs := step.2.2
  if location' ∈ bindings'.locations then
    ⟨bindings', lsetInsert st.duplicates location', st.msgs ++ newMsgs⟩
  else
    ⟨{bindings' with locations := lsetInsert bindings'.locations location'},
      st.duplicates, st.msgs ++ newMsgs⟩

/-- One item of a binding layout descriptor. -/
structure BindingLayoutItem where
  slot : Nat
  type : ResourceType
  size : Nat
deriving DecidableEq, Repr

/-- Modelled from the spec: `BindingLayoutItem::getArraySize` (declared in a
header not among the sources).  Layout items occupy one binding location per
array element; a push-constant block's `size` is its byte size rather than an
array count, while other items use `size` as the array size. -/
def BindingLayoutItem.getArraySize (item : BindingLayoutItem) : Nat :=
  if item.type = ResourceType.PushConstants then 1 else item.size

/-- `nvrhi::BindingLayoutDesc`; the `visibility` stage mask is modelled as a
list of visible stages. -/
structure BindingLayoutDesc where
  visibility : List ShaderType
  registerSpace : Nat
  registerSpaceIsDescriptorSet : Bool
  bindings : List BindingLayoutItem
deriving DecidableEq, Repr

/-- `FillBindingLayoutSummary`: one location per item array element, at the
layout's register space. -/
def FillBindingLayoutSummary (desc : BindingLayoutDesc) : SummaryState :=
  desc.bindings.foldl
    (fun st item =>
      (List.range item.getArraySize).foldl
        (fun st2 arrayElement =>
          UpdateBindingSummaryWithLocation item.type
            ⟨desc.registerSpace, item.slot, arrayElement,
              defaultGraphicsResourceType⟩ st2)
        st)
    SummaryState.initial

/-- `nvrhi::BufferRange`. -/
structure BufferRange where
  byteOffset : Nat
  byteSize : Nat
deriving DecidableEq, Repr

/-- `nvrhi::TextureSubresourceSet`. -/
structure TextureSubresourceSet where
  baseMipLevel : Nat
  numMipLevels : Nat
  baseArraySlice : Nat
  numArraySlices : Nat
deriving DecidableEq, Repr

/-- One item of a binding set descriptor (`nvrhi::BindingSetItem`). -/
structure BindingSetItem where
  slot : Nat
  arrayElement : Nat
  type : ResourceType
  resourceHandle : Option Resource
  dimension : TextureDimension
  format : Format
  range : BufferRange
  subresources : TextureSubresourceSet
deriving DecidableEq, Repr

/-- `nvrhi::BindingSetDesc` (the bindings array). -/
structure BindingSetDesc where
  bindings : List BindingSetItem
deriving DecidableEq, Repr

/-- `FillBindingSetSummary`: one location per set item, at the given register
space. -/
def FillBindingSetSummary (desc : BindingSetDesc) (registerSpace : Nat) :
    SummaryState :=
  desc.bindings.foldl
    (fun st item =>
      UpdateBindingSummaryWithLocation item.type
        ⟨registerSpace, item.slot, item.arrayElement,
          defaultGraphicsResourceType⟩ st)
    SummaryState.initial

/-! ### Per-binding-item validation -/

/-- `checked_cast<ITexture*>` on a binding's resource handle. -/
def Resource.asTexture : Resource → Option TextureDesc
  | Resource.texture d => some d
  | _ => none

/-- `checked_cast<IBuffer*>` on a binding's resource handle. -/
def Resource.asBuffer : Resource → Option BufferDesc
  | Resource.buffer d => some d
  | _ => none

/-- Modelled from the spec: `TextureSubresourceSet::resolve` (defined in a
header not among the sources) clamps the requested mip and array ranges to
the texture's extents; for non-array dimensions the array range collapses to
the single slice 0. -/
def TextureSubresourceSet.resolve (s : TextureSubresourceSet)
    (desc : TextureDesc) (singleMipLevel : Bool) : TextureSubresourceSet :=
  let numMips :=
    if singleMipLevel then 1
    else Nat.min (s.baseMipLevel + s.numMipLevels) desc.mipLevels - s.baseMipLevel
  match desc.dimension with
  | TextureDimension.Texture1DArray | TextureDimension.Texture2DArray
  | TextureDimension.TextureCube | TextureDimension.TextureCubeArray
  | TextureDimension.Texture2DMSArray =>
    ⟨s.baseMipLevel, numMips, s.baseArraySlice,
      Nat.min (s.baseArraySlice + s.numArraySlices) desc.arraySize -
        s.baseArraySlice⟩
  | _ => ⟨s.baseMipLevel, numMips, 0, 1⟩

/-- Modelled from the spec: `BufferRange::isEntireBuffer` (header not among
the sources): the range covers the whole buffer when it starts at offset 0
and its size is either the whole-buffer sentinel 0 or the buffer's byte
size. -/
def BufferRange.isEntireBuffer (r : BufferRange) (desc : BufferDesc) : Bool :=
  r.byteOffset == 0 && (r.byteSize == 0 || r.byteSize == desc.byteSize)

/-- Modelled from the spec: `BufferRange::resolve` clamps the range to the
buffer's extent, the size sentinel 0 meaning the remainder of the buffer. -/
def BufferRange.resolve (r : BufferRange) (desc : BufferDesc) : BufferRange :=
  let off := Nat.min r.byteOffset desc.byteSize
  ⟨off, if r.byteSize == 0 then desc.byteSize - off
        else Nat.min r.byteSize (desc.byteSize - off)⟩

/-- Modelled from the spec: the fixed alignment constant for partial
constant-buffer ranges (`c_ConstantBufferOffsetSizeAlignment`, declared in a
header not among the sources). -/
def c_ConstantBufferOffsetSizeAlignment : Nat := 256

/-- Modelled from the spec: the push-constant block size limit
(`c_MaxPushConstantSize`, declared in a header not among the sources). -/
def c_MaxPushConstantSize : Nat := 128

/-- Modelled from the spec: the binding-layout count / register-space-index
limit (`c_MaxBindingLayouts`, declared in a header not among the sources). -/
def c_MaxBindingLayouts : Nat := 5

/-- `textureDimensionsCompatible`. -/
def textureDimensionsCompatible (resourceDimension viewDimension :
    TextureDimension) : Bool :=
  if resourceDimension == viewDimension then true
  else if resourceDimension == TextureDimension.Texture3D then
    viewDimension == TextureDimension.Texture2DArray
  else if resourceDimension == TextureDimension.TextureCube ||
      resourceDimension == TextureDimension.TextureCubeArray then
    viewDimension == TextureDimension.Texture2DArray
  else false

/-- `DeviceWrapper::validateBindingSetItem`: returns whether the item is
valid and the findings it appended to the caller's error stream. -/
def validateBindingSetItem (dev : DeviceCaps) (isDescriptorTable : Bool)
    (binding : BindingSetItem) : Bool × List Finding :=
  match binding.type with
  | ResourceType.None =>
    if !isDescriptorTable then (false, [Finding.noneInBindingSet])
    else (true, [])
  | ResourceType.Texture_SRV | ResourceType.Texture_UAV =>
    match binding.resourceHandle.bind Resource.asTexture with
    | Option.none => (false, [Finding.nullResource])
    | Option.some desc =>
      let subresources := binding.subresources.resolve desc false
      if subresources.numArraySlices == 0 || subresources.numMipLevels == 0 then
        (false, [Finding.subresourcesDontIntersect])
      else if binding.type == ResourceType.Texture_UAV && !desc.isUAV then
        (false, [Finding.textureNotUAV])
      else if binding.dimension != TextureDimension.Unknown &&
          !textureDimensionsCompatible desc.dimension binding.dimension then
        (false, [Finding.incompatibleDimension])
      else (true, [])
  | ResourceType.SamplerFeedbackTexture_UAV => (true, [])
  | ResourceType.TypedBuffer_SRV | ResourceType.TypedBuffer_UAV
  | ResourceType.StructuredBuffer_SRV | ResourceType.StructuredBuffer_UAV
  | ResourceType.RawBuffer_SRV | ResourceType.RawBuffer_UAV
  | ResourceType.ConstantBuffer | ResourceType.VolatileConstantBuffer =>
    let buffer := binding.resourceHandle.bind Resource.asBuffer
    if buffer.isNone && binding.type != ResourceType.TypedBuffer_SRV &&
        binding.type != ResourceType.TypedBuffer_UAV &&
        dev.graphicsAPI != GraphicsAPI.VULKAN then
      (false, [Finding.nullResource])
    else
      match buffer with
      | Option.none => (true, [])
      | Option.some desc =>
        let isTypedView := binding.type == ResourceType.TypedBuffer_SRV ||
          binding.type == ResourceType.TypedBuffer_UAV
        let isStructuredView :=
          binding.type == ResourceType.StructuredBuffer_SRV ||
          binding.type == ResourceType.StructuredBuffer_UAV
        let isRawView := binding.type == ResourceType.RawBuffer_SRV ||
          binding.type == ResourceType.RawBuffer_UAV
        let isUAV := binding.type == ResourceType.TypedBuffer_UAV ||
          binding.type == ResourceType.StructuredBuffer_UAV ||
          binding.type == ResourceType.RawBuffer_UAV
        let isConstantView := binding.type == ResourceType.ConstantBuffer ||
          binding.type == ResourceType.VolatileConstantBuffer
        if isTypedView && !desc.canHaveTypedViews then
          (false, [Finding.noTypedViews])
        else if isStructuredView && desc.structStride == 0 then
          (false, [Finding.noStructStride])
        else if isRawView && !desc.canHaveRawViews then
          (false, [Finding.noRawViews])
        else if isUAV && !desc.canHaveUAVs then
          (false, [Finding.noUAVs])
        else if isConstantView && !desc.isConstantBuffer then
          (false, [Finding.notConstantBuffer])
        else if binding.type == ResourceType.ConstantBuffer &&
            desc.isVolatile then
          (false, [Finding.volatileAsRegular])
        else if binding.type == ResourceType.VolatileConstantBuffer &&
            !desc.isVolatile then
          (false, [Finding.regularAsVolatile])
        else if isTypedView && (binding.format == Format.UNKNOWN &&
            desc.format == Format.UNKNOWN) then
          (false, [Finding.bothFormatsUnknown])
        else if binding.type == ResourceType.ConstantBuffer &&
            !(binding.range.isEntireBuffer desc) then
          if !dev.constantBufferRanges then
            (false, [Finding.cbRangesUnsupported])
          else
            let range := binding.range.resolve desc
            if range.byteOffset % c_ConstantBufferOffsetSizeAlignment != 0 then
              (false, [Finding.cbBadOffset])
            else if range.byteSize == 0 ||
                range.byteSize % c_ConstantBufferOffsetSizeAlignment != 0 then
              (false, [Finding.cbBadSize])
            else (true, [])
        else if binding.type == ResourceType.VolatileConstantBuffer &&
            !(binding.range.isEntireBuffer desc) then
          (false, [Finding.volatilePartialBind])
        else (true, [])
  | ResourceType.Sampler =>
    if binding.resourceHandle.isNone then (false, [Finding.nullResource])
    else (true, [])
  | ResourceType.RayTracingAccelStruct =>
    if binding.resourceHandle.isNone then (false, [Finding.nullResource])
    else (true, [])
  | ResourceType.PushConstants =>
    if isDescriptorTable then (false, [Finding.pushConstantsInTable])
    else if !binding.resourceHandle.isNone then
      (false, [Finding.pushConstantsWithResource])
    else if binding.range.byteSize == 0 then
      (false, [Finding.pushConstantsZeroSize])
    else (true, [])
  | ResourceType.Count =>
    (false, [Finding.unrecognizedResourceType ResourceType.Count])

/-- A binding layout handle as seen by the decorator: null, a bindless layout
(whose `getDesc()` is null), or a layout with a descriptor. -/
inductive LayoutHandle where
  | null
  | bindless
  | layout (desc : BindingLayoutDesc)
deriving DecidableEq, Repr

/-- Result of `DeviceWrapper::createBindingSet`, with the two location-set
differences exposed. -/
structure BindingSetCreation where
  ret : Option Nat
  msgs : List Msg
  backendCalls : Nat
  declaredNotBound : List BindingLocation
  boundNotDeclared : List BindingLocation
deriving DecidableEq, Repr

/-- `DeviceWrapper::createBindingSet`: the set's locations are diffed both
ways against the layout's declared locations, set-internal duplicates and
every item are validated, and all findings are reported through a single
sink invocation on failure; on success resources are unwrapped and the
patched descriptor is forwarded once. -/
def createBindingSet (dev : DeviceCaps) (backend : BindingSetDesc → Option Nat)
    (layout : LayoutHandle) (desc : BindingSetDesc) : BindingSetCreation :=
  match layout with
  | LayoutHandle.null => ⟨none, [errMsg Finding.nullLayoutForSet], 0, [], []⟩
  | LayoutHandle.bindless =>
    ⟨none, [errMsg Finding.bindlessLayoutForSet], 0, [], []⟩
  | LayoutHandle.layout layoutDesc =>
    let layoutState := FillBindingLayoutSummary layoutDesc
    let setState := FillBindingSetSummary desc layoutDesc.registerSpace
    let declaredNotBound :=
      SetDifference layoutState.bindings.locations setState.bindings.locations
    let boundNotDeclared :=
      SetDifference setState.bindings.locations layoutState.bindings.locations
    let itemResults := desc.bindings.map (validateBindingSetItem dev false)
    let anyItemErrors := itemResults.any (fun r => !r.1)
    let findings :=
      (if !declaredNotBound.isEmpty then
        [Finding.declaredNotBound declaredNotBound] else []) ++
      (if !boundNotDeclared.isEmpty then
        [Finding.boundNotDeclared boundNotDeclared] else []) ++
      (if !setState.duplicates.isEmpty then
        [Finding.setDuplicates setState.duplicates] else []) ++
      (itemResults.map Prod.snd).flatten
    let anyErrors := !declaredNotBound.isEmpty || !boundNotDeclared.isEmpty ||
      !setState.duplicates.isEmpty || anyItemErrors
    let fillMsgs := layoutState.msgs ++ setState.msgs
    if anyErrors then
      ⟨none, fillMsgs ++ [⟨Severity.error, findings⟩], 0,
        declaredNotBound, boundNotDeclared⟩
    else
      let patched : BindingSetDesc :=
        ⟨desc.bindings.map (fun b =>
          {b with resourceHandle := unwrapResource b.resourceHandle})⟩
      ⟨backend patched, fillMsgs, 1, declaredNotBound, boundNotDeclared⟩

/-- `DeviceWrapper::writeDescriptorTable`: validate the single item as a
descriptor-table write; on failure report the findings through one sink
invocation, otherwise unwrap the resource and forward once. -/
def writeDescriptorTable (dev : DeviceCaps)
    (backendWrite : BindingSetItem → Bool) (item : BindingSetItem) :
    OpResult Bool :=
  let r := validateBindingSetItem dev true item
  if !r.1 then ⟨false, [⟨Severity.error, r.2⟩], 0⟩
  else ⟨backendWrite
    {item with resourceHandle := unwrapResource item.resourceHandle}, [], 1⟩

/-! ### Pipeline binding-layout validation -/

/-- Per-stage summary of one layout: empty when the layout handle is null or
bindless, or when the layout is not visible to the stage (the loop
`continue`s before filling). -/
def visibleSummary (stage : ShaderType) (l : LayoutHandle) : SummaryState :=
  match l with
  | LayoutHandle.layout d =>
    if stage ∈ d.visibility then FillBindingLayoutSummary d
    else SummaryState.initial
  | _ => SummaryState.initial

/-- The duplicate-accumulation loop over the per-layout location sets:
starting from the first layout's locations, each further layout first
contributes its intersection with everything seen so far to the duplicate
set and is then merged in. -/
def accumulateDuplicates : List BindingLocation → List BindingLocation →
    List (List BindingLocation) → List BindingLocation × List BindingLocation
  | bindings, dups, [] => (bindings, dups)
  | bindings, dups, locs :: rest =>
    accumulateDuplicates (SetUnionInplace bindings locs)
      (SetUnionInplace dups (SetIntersection bindings locs)) rest

/-- Locations declared by more than one of the given per-layout location
sets, exactly as the source's pairwise accumulation computes them. -/
def stageDuplicates (summaries : List (List BindingLocation)) :
    List BindingLocation :=
  match summaries with
  | [] => []
  | first :: rest => (accumulateDuplicates first [] rest).2

/-- The double loop `for i < j` testing `overlapsWith` over all layout pairs,
OR-accumulated. -/
def anyPairOverlap : List Range → Bool
  | [] => false
  | r :: rest => rest.any (fun o => r.overlapsWith o) || anyPairOverlap rest

/-- What one iteration of the per-shader loop of
`validatePipelineBindingLayouts` observes for its stage. -/
structure StageCheck where
  msgs : List Msg
  anyNullLayout : Bool
  duplicates : List BindingLocation
  overlapClasses : List GraphicsResourceType
deriving DecidableEq, Repr

/-- One iteration of the per-shader loop: fill per-layout summaries for this
stage (reporting null layout handles), accumulate cross-layout duplicates,
and — only on D3D11 and only when no duplicates were found — test the
per-class slot ranges of all layout pairs for overlap. -/
def checkStage (api : GraphicsAPI) (layouts : List LayoutHandle)
    (stage : ShaderType) : StageCheck :=
  let numBindingLayouts := layouts.length
  let msgs := (layouts.enum.map (fun p =>
      match p.2 with
      | LayoutHandle.null => [errMsg (Finding.nullLayoutHandle p.1)]
      | LayoutHandle.bindless => []
      | LayoutHandle.layout d =>
        if stage ∈ d.visibility then (FillBindingLayoutSummary d).msgs
        else [])).flatten
  let anyNullLayout := layouts.any (fun l => l == LayoutHandle.null)
  let summaries := layouts.map (visibleSummary stage)
  if numBindingLayouts > 1 then
    let dup := stageDuplicates (summaries.map (fun s => s.bindings.locations))
    if !dup.isEmpty then ⟨msgs, anyNullLayout, dup, []⟩
    else if api == GraphicsAPI.D3D11 then
      let overlapSRV :=
        anyPairOverlap (summaries.map (fun s => s.bindings.rangeSRV))
      let overlapSampler :=
        anyPairOverlap (summaries.map (fun s => s.bindings.rangeSampler))
      let overlapUAV :=
        anyPairOverlap (summaries.map (fun s => s.bindings.rangeUAV))
      let overlapCB :=
        anyPairOverlap (summaries.map (fun s => s.bindings.rangeCB))
      let classes :=
        (if overlapSRV then [GraphicsResourceType.SRV] else []) ++
        (if overlapSampler then [GraphicsResourceType.Sampler] else []) ++
        (if overlapUAV then [GraphicsResourceType.UAV] else []) ++
        (if overlapCB then [GraphicsResourceType.CB] else [])
      ⟨msgs, anyNullLayout, [], classes⟩
    else ⟨msgs, anyNullLayout, [], []⟩
  else ⟨msgs, anyNullLayout, [], []⟩

/-- The `registerSpaceIsDescriptorSet` consistency state machine. -/
inductive RegisterSpaceIsDescriptorSet where
  | isFalse
  | isTrue
  | undetermined
  | mixed
deriving DecidableEq, Repr

/-- State of the post-loop walk over the layouts: push-constant bookkeeping,
register-space-semantics state machine, and the register-space-to-layout
map (`-1` entries modelled as `Option.none`). -/
structure PostLoopState where
  pushConstantCount : Nat
  pushConstantSize : Nat
  rsd : RegisterSpaceIsDescriptorSet
  spaceToLayoutIdx : Nat → Option Nat
  msgs : List Msg
  anyErrors : Bool

/-- One step of the post-loop walk for the layout at index `p.1`.  The source
dereferences a null layout handle here (undefined behavior) and skips layouts
whose descriptor is null; both are modelled as a skip.  The source also
writes `registerSpaceToLayoutIdx[space]` even when `space` exceeds the array
bound (undefined behavior); the map being total makes that write harmless
here. -/
def postLoopStep (st : PostLoopState) (p : Nat × LayoutHandle) :
    PostLoopState :=
  match p.2 with
  | LayoutHandle.layout d =>
    let pcCount := st.pushConstantCount +
      (d.bindings.filter (fun item =>
        item.type == ResourceType.PushConstants)).length
    let pcSize := d.bindings.foldl
      (fun acc item =>
        if item.type == ResourceType.PushConstants then Nat.max acc item.size
        else acc)
      st.pushConstantSize
    if d.registerSpaceIsDescriptorSet then
      let tooLarge := decide (d.registerSpace ≥ c_MaxBindingLayouts)
      let reused := !tooLarge && (st.spaceToLayoutIdx d.registerSpace).isSome
      let msgs := st.msgs ++
        (if tooLarge then [errMsg (Finding.registerSpaceTooLarge p.1)]
         else []) ++
        (if reused then [errMsg (Finding.registerSpaceReused p.1)] else [])
      let spaceMap := fun sp =>
        if sp == d.registerSpace then some p.1 else st.spaceToLayoutIdx sp
      let rsd := match st.rsd with
        | RegisterSpaceIsDescriptorSet.undetermined =>
          RegisterSpaceIsDescriptorSet.isTrue
        | RegisterSpaceIsDescriptorSet.isFalse =>
          RegisterSpaceIsDescriptorSet.mixed
        | other => other
      ⟨pcCount, pcSize, rsd, spaceMap, msgs,
        st.anyErrors || tooLarge || reused⟩
    else
      let rsd := match st.rsd with
        | RegisterSpaceIsDescriptorSet.undetermined =>
          RegisterSpaceIsDescriptorSet.isFalse
        | RegisterSpaceIsDescriptorSet.isTrue =>
          RegisterSpaceIsDescriptorSet.mixed
        | other => other
      ⟨pcCount, pcSize, rsd, st.spaceToLayoutIdx, st.msgs, st.anyErrors⟩
  | _ => st

/-- Result of `DeviceWrapper::validatePipelineBindingLayouts`, with the
per-stage content of the aggregated duplicate and overlap messages
exposed. -/
structure PipelineLayoutValidation where
  ok : Bool
  msgs : List Msg
  duplicateEntries : List (ShaderType × List BindingLocation)
  overlapEntries : List (ShaderType × List GraphicsResourceType)
deriving DecidableEq, Repr

/-- `DeviceWrapper::validatePipelineBindingLayouts`: per-shader duplicate and
(D3D11-only) range-overlap detection, each reported through at most one
aggregated error across all stages, followed by push-constant and
register-space consistency checks over the layouts. -/
def validatePipelineBindingLayouts (api : GraphicsAPI)
    (layouts : List LayoutHandle) (shaders : List ShaderType) :
    PipelineLayoutValidation :=
  let stageChecks := shaders.map (fun s => (s, checkStage api layouts s))
  let stageMsgs := (stageChecks.map (fun p => p.2.msgs)).flatten
  let anyNullLayout := stageChecks.any (fun p => p.2.anyNullLayout)
  let duplicateEntries := stageChecks.filterMap (fun p =>
    if !p.2.duplicates.isEmpty then some (p.1, p.2.duplicates) else none)
  let overlapEntries := stageChecks.filterMap (fun p =>
    if !p.2.overlapClasses.isEmpty then some (p.1, p.2.overlapClasses)
    else none)
  let dupMsgs :=
    if !duplicateEntries.isEmpty then
      [⟨Severity.error, [Finding.duplicateBindings duplicateEntries]⟩]
    else []
  let ovlMsgs :=
    if !overlapEntries.isEmpty then
      [⟨Severity.error, [Finding.overlappingBindings overlapEntries]⟩]
    else []
  let post := layouts.enum.foldl postLoopStep
    ⟨0, 0, RegisterSpaceIsDescriptorSet.undetermined, fun _ => none, [], false⟩
  let mixedBad := post.rsd == RegisterSpaceIsDescriptorSet.mixed
  let pcCountBad := decide (post.pushConstantCount > 1)
  let pcSizeBad := decide (post.pushConstantSize > c_MaxPushConstantSize)
  let anyErrors := anyNullLayout || !duplicateEntries.isEmpty ||
    !overlapEntries.isEmpty || post.anyErrors || mixedBad || pcCountBad ||
    pcSizeBad
  { ok := !anyErrors,
    msgs := stageMsgs ++ dupMsgs ++ ovlMsgs ++ post.msgs ++
      (if mixedBad then [errMsg Finding.mixedRegisterSpaceSemantics]
       else []) ++
      (if pcCountBad then
        [errMsg (Finding.tooManyPushConstantBlocks post.pushConstantCount)]
       else []) ++
      (if pcSizeBad then
        [errMsg (Finding.pushConstantSizeExceeded post.pushConstantSize)]
       else []),
    duplicateEntries := duplicateEntries,
    overlapEntries := overlapEntries }

/-! ### Relational vocabulary used by the statements -/

/-- Two entries at different positions of a list are related by `P`. -/
def IndexedPair {α : Type} (P : α → α → Prop) (ls : List α) : Prop :=
  ∃ (i j : Nat) (a b : α), i < j ∧ ls[i]? = some a ∧ ls[j]? = some b ∧ P a b

/-- Two different binding layouts of the pipeline, both visible to `stage`,
each declare the binding location `loc`. -/
def DeclaresSharedLocation (layouts : List LayoutHandle) (stage : ShaderType)
    (loc : BindingLocation) : Prop :=
  ∃ (i j : Nat) (li lj : LayoutHandle), i < j ∧
    layouts[i]? = some li ∧ layouts[j]? = some lj ∧
    loc ∈ (visibleSummary stage li).bindings.locations ∧
    loc ∈ (visibleSummary stage lj).bindings.locations

/-- For two different binding layouts of the pipeline, the slot ranges that
`proj` selects from their per-stage summaries overlap in the sense of
`Range::overlapsWith`. -/
def ClassRangeOverlap (layouts : List LayoutHandle) (stage : ShaderType)
    (proj : BindingSummary → Range) : Prop :=
  ∃ (i j : Nat) (li lj : LayoutHandle), i < j ∧
    layouts[i]? = some li ∧ layouts[j]? = some lj ∧
    (proj (visibleSummary stage li).bindings).overlapsWith
      (proj (visibleSummary stage lj).bindings) = true

/-! ### Properties of the unordered-set helpers -/

theorem mem_lsetInsert {α : Type} [DecidableEq α] {s : List α} {x y : α} :
    y ∈ lsetInsert s x ↔ y ∈ s ∨ y = x := by
  unfold lsetInsert
  split
  · constructor
    · exact Or.inl
    · rintro (h | rfl) <;> assumption
  · simp

theorem nodup_lsetInsert {α : Type} [DecidableEq α] {s : List α} (h : s.Nodup)
    (x : α) : (lsetInsert s x).Nodup := by
  unfold lsetInsert
  split
  · exact h
  · next hx =>
    rw [List.nodup_append]
    refine ⟨h, List.nodup_singleton x, ?_⟩
    intro a ha hax
    simp only [List.mem_singleton] at hax
    exact hx (hax ▸ ha)

theorem mem_SetUnionInplace {α : Type} [DecidableEq α] {a b : List α} {y : α} :
    y ∈ SetUnionInplace a b ↔ y ∈ a ∨ y ∈ b := by
  induction b generalizing a with
  | nil => simp [SetUnionInplace]
  | cons x t ih =>
    show y ∈ SetUnionInplace (lsetInsert a x) t ↔ _
    rw [ih, mem_lsetInsert]
    simp only [List.mem_cons]
    tauto

theorem nodup_SetUnionInplace {α : Type} [DecidableEq α] {a b : List α}
    (h : a.Nodup) : (SetUnionInplace a b).Nodup := by
  induction b generalizing a with
  | nil => exact h
  | cons x t ih => exact ih (nodup_lsetInsert h x)

theorem mem_SetIntersection {α : Type} [DecidableEq α] {a b : List α} {y : α} :
    y ∈ SetIntersection a b ↔ y ∈ a ∧ y ∈ b := by
  have key : ∀ (l r : List α), y ∈ l.foldl
      (fun r x => if x ∈ b then lsetInsert r x else r) r ↔
      y ∈ r ∨ (y ∈ l ∧ y ∈ b) := by
    intro l
    induction l with
    | nil => simp
    | cons x t ih =>
      intro r
      simp only [List.foldl_cons, ih, List.mem_cons]
      by_cases hx : x ∈ b
      · simp only [if_pos hx, mem_lsetInsert]
        constructor
        · rintro ((h | rfl) | ⟨h1, h2⟩)
          · exact Or.inl h
          · exact Or.inr ⟨Or.inl rfl, hx⟩
          · exact Or.inr ⟨Or.inr h1, h2⟩
        · rintro (h | ⟨(rfl | h1), h2⟩)
          · exact Or.inl (Or.inl h)
          · exact Or.inl (Or.inr rfl)
          · exact Or.inr ⟨h1, h2⟩
      · simp only [if_neg hx]
        constructor
        · rintro (h | ⟨h1, h2⟩)
          · exact Or.inl h
          · exact Or.inr ⟨Or.inr h1, h2⟩
        · rintro (h | ⟨(rfl | h1), h2⟩)
          · exact Or.inl h
          · exact absurd h2 hx
          · exact Or.inr ⟨h1, h2⟩
  rw [SetIntersection, key]
  simp

theorem mem_SetDifference {α : Type} [DecidableEq α] {a b : List α} {y : α}
    (ha : a.Nodup) : y ∈ SetDifference a b ↔ y ∈ a ∧ y ∉ b := by
  induction b generalizing a with
  | nil => simp [SetDifference]
  | cons x t ih =>
    show y ∈ SetDifference (a.erase x) t ↔ _
    rw [ih (ha.erase x), ha.mem_erase_iff]
    simp only [List.mem_cons]
    tauto

/-! ### Indexed pairs and the duplicate / overlap accumulators -/

theorem indexedPair_nil {α : Type} {P : α → α → Prop} :
    ¬ IndexedPair P ([] : List α) := by
  rintro ⟨i, j, a, b, hij, ha, hb, hP⟩
  simp at ha

theorem indexedPair_cons {α : Type} {P : α → α → Prop} {x : α} {t : List α} :
    IndexedPair P (x :: t) ↔ (∃ b ∈ t, P x b) ∨ IndexedPair P t := by
  constructor
  · rintro ⟨i, j, a, b, hij, ha, hb, hP⟩
    cases j with
    | zero => exact absurd hij (Nat.not_lt_zero i)
    | succ j =>
      cases i with
      | zero =>
        simp only [List.getElem?_cons_zero, Option.some.injEq] at ha
        simp only [List.getElem?_cons_succ] at hb
        subst ha
        exact Or.inl ⟨b, List.mem_iff_getElem?.2 ⟨j, hb⟩, hP⟩
      | succ i =>
        simp only [List.getElem?_cons_succ] at ha hb
        exact Or.inr ⟨i, j, a, b, Nat.lt_of_succ_lt_succ hij, ha, hb, hP⟩
  · rintro (⟨b, hb, hP⟩ | ⟨i, j, a, b, hij, ha, hb, hP⟩)
    · obtain ⟨k, hk⟩ := List.mem_iff_getElem?.1 hb
      exact ⟨0, k + 1, x, b, Nat.succ_pos k, by simp, by simpa using hk, hP⟩
    · exact ⟨i + 1, j + 1, a, b, Nat.succ_lt_succ hij, by simpa using ha,
        by simpa using hb, hP⟩

theorem indexedPair_map {α β : Type} {P : β → β → Prop} {f : α → β}
    {l : List α} :
    IndexedPair P (l.map f) ↔
      ∃ (i j : Nat) (a b : α), i < j ∧ l[i]? = some a ∧ l[j]? = some b ∧
        P (f a) (f b) := by
  constructor
  · rintro ⟨i, j, a, b, hij, ha, hb, hP⟩
    rw [List.getElem?_map] at ha hb
    obtain ⟨a', ha', rfl⟩ := Option.map_eq_some'.1 ha
    obtain ⟨b', hb', rfl⟩ := Option.map_eq_some'.1 hb
    exact ⟨i, j, a', b', hij, ha', hb', hP⟩
  · rintro ⟨i, j, a, b, hij, ha, hb, hP⟩
    exact ⟨i, j, f a, f b, hij, by simp [List.getElem?_map, ha],
      by simp [List.getElem?_map, hb], hP⟩

theorem mem_accumulateDuplicates {bindings dups : List BindingLocation}
    {ls : List (List BindingLocation)} {x : BindingLocation} :
    x ∈ (accumulateDuplicates bindings dups ls).2 ↔
      x ∈ dups ∨ ((∃ l ∈ ls, x ∈ l) ∧ x ∈ bindings) ∨
      IndexedPair (fun a b => x ∈ a ∧ x ∈ b) ls := by
  induction ls generalizing bindings dups with
  | nil =>
    simp [accumulateDuplicates, indexedPair_nil]
  | cons l rest ih =>
    rw [accumulateDuplicates, ih, indexedPair_cons]
    simp only [mem_SetUnionInplace, mem_SetIntersection, List.mem_cons]
    constructor
    · rintro ((hd | ⟨hb, hl⟩) | ⟨⟨l', hl', hxl'⟩, (hb | hl)⟩ | hp)
      · exact Or.inl hd
      · exact Or.inr (Or.inl ⟨⟨l, Or.inl rfl, hl⟩, hb⟩)
      · exact Or.inr (Or.inl ⟨⟨l', Or.inr hl', hxl'⟩, hb⟩)
      · exact Or.inr (Or.inr (Or.inl ⟨l', hl', hl, hxl'⟩))
      · exact Or.inr (Or.inr (Or.inr hp))
    · rintro (hd | ⟨⟨l', (rfl | hl'), hxl'⟩, hb⟩ | (⟨b, hbmem, hxl, hxb⟩ | hp))
      · exact Or.inl (Or.inl hd)
      · exact Or.inl (Or.inr ⟨hb, hxl'⟩)
      · exact Or.inr (Or.inl ⟨⟨l', hl', hxl'⟩, Or.inl hb⟩)
      · exact Or.inr (Or.inl ⟨⟨b, hbmem, hxb⟩, Or.inr hxl⟩)
      · exact Or.inr (Or.inr hp)

theorem mem_stageDuplicates {summaries : List (List BindingLocation)}
    {x : BindingLocation} :
    x ∈ stageDuplicates summaries ↔
      IndexedPair (fun a b => x ∈ a ∧ x ∈ b) summaries := by
  cases summaries with
  | nil =>
    simp only [stageDuplicates, List.not_mem_nil, false_iff]
    exact indexedPair_nil
  | cons first rest =>
    rw [stageDuplicates, mem_accumulateDuplicates, indexedPair_cons]
    simp only [List.not_mem_nil, false_or]
    constructor
    · rintro (⟨⟨l, hl, hxl⟩, hxf⟩ | h)
      · exact Or.inl ⟨l, hl, hxf, hxl⟩
      · exact Or.inr h
    · rintro (⟨b, hb, hxf, hxb⟩ | h)
      · exact Or.inl ⟨⟨b, hb, hxb⟩, hxf⟩
      · exact Or.inr h

theorem anyPairOverlap_iff {rs : List Range} :
    anyPairOverlap rs = true ↔
      IndexedPair (fun a b => a.overlapsWith b = true) rs := by
  induction rs with
  | nil => simp [anyPairOverlap, indexedPair_nil]
  | cons r t ih =>
    rw [anyPairOverlap, indexedPair_cons, ← ih]
    simp [List.any_eq_true]

/-! ### Invariants of the binding summaries -/

theorem update_locations_nodup (t : ResourceType) (loc : BindingLocation)
    (st : SummaryState) (h : st.bindings.locations.Nodup) :
    (UpdateBindingSummaryWithLocation t loc st).bindings.locations.Nodup := by
  unfold UpdateBindingSummaryWithLocation
  cases t <;> dsimp only <;> split <;>
    first
      | exact h
      | exact nodup_lsetInsert h _

theorem foldl_update_nodup {β : Type} (f : SummaryState → β → SummaryState)
    (hf : ∀ st b, st.bindings.locations.Nodup →
      (f st b).bindings.locations.Nodup) :
    ∀ (l : List β) (st : SummaryState), st.bindings.locations.Nodup →
      (l.foldl f st).bindings.locations.Nodup := by
  intro l
  induction l with
  | nil => intro st h; exact h
  | cons x tl ih => intro st h; exact ih _ (hf st x h)

theorem fill_layout_nodup (d : BindingLayoutDesc) :
    (FillBindingLayoutSummary d).bindings.locations.Nodup := by
  unfold FillBindingLayoutSummary
  refine foldl_update_nodup _ ?_ _ _ List.nodup_nil
  intro st item hst
  exact foldl_update_nodup _
    (fun st2 ae h2 => update_locations_nodup _ _ _ h2) _ _ hst

theorem fill_set_nodup (desc : BindingSetDesc) (registerSpace : Nat) :
    (FillBindingSetSummary desc registerSpace).bindings.locations.Nodup := by
  unfold FillBindingSetSummary
  exact foldl_update_nodup _
    (fun st item h => update_locations_nodup _ _ _ h) _ _ List.nodup_nil

theorem update_msgs_of_valid (t : ResourceType) (loc : BindingLocation)
    (st : SummaryState) (ht : t ≠ ResourceType.None ∧ t ≠ ResourceType.Count) :
    (UpdateBindingSummaryWithLocation t loc st).msgs = st.msgs := by
  unfold UpdateBindingSummaryWithLocation
  cases t <;> dsimp only <;> split <;>
    first
      | exact absurd rfl ht.1
      | exact absurd rfl ht.2
      | simp

theorem fill_layout_msgs_nil (d : BindingLayoutDesc)
    (h : ∀ item ∈ d.bindings, item.type ≠ ResourceType.None ∧
      item.type ≠ ResourceType.Count) :
    (FillBindingLayoutSummary d).msgs = [] := by
  unfold FillBindingLayoutSummary
  have inner : ∀ (item : BindingLayoutItem), item ∈ d.bindings →
      ∀ (l : List Nat) (st : SummaryState),
      (l.foldl (fun st2 arrayElement =>
        UpdateBindingSummaryWithLocation item.type
          ⟨d.registerSpace, item.slot, arrayElement,
            defaultGraphicsResourceType⟩ st2) st).msgs = st.msgs := by
    intro item hitem l
    induction l with
    | nil => intro st; rfl
    | cons x tl ih =>
      intro st
      rw [List.foldl_cons, ih, update_msgs_of_valid _ _ _ (h item hitem)]
  have outer : ∀ (items : List BindingLayoutItem),
      (∀ item ∈ items, item ∈ d.bindings) →
      ∀ (st : SummaryState),
      (items.foldl (fun st item =>
        (List.range item.getArraySize).foldl
          (fun st2 arrayElement =>
            UpdateBindingSummaryWithLocation item.type
              ⟨d.registerSpace, item.slot, arrayElement,
                defaultGraphicsResourceType⟩ st2) st) st).msgs = st.msgs := by
    intro items
    induction items with
    | nil => intro _ st; rfl
    | cons x tl ih =>
      intro hmem st
      rw [List.foldl_cons, ih (fun i hi => hmem i (List.mem_cons_of_mem x hi)),
        inner x (hmem x (List.mem_cons_self x tl))]
  exact outer d.bindings (fun i hi => hi) SummaryState.initial

theorem fill_set_msgs_nil (desc : BindingSetDesc) (registerSpace : Nat)
    (h : ∀ item ∈ desc.bindings, item.type ≠ ResourceType.None ∧
      item.type ≠ ResourceType.Count) :
    (FillBindingSetSummary desc registerSpace).msgs = [] := by
  unfold FillBindingSetSummary
  have key : ∀ (items : List BindingSetItem),
      (∀ item ∈ items, item ∈ desc.bindings) →
      ∀ (st : SummaryState),
      (items.foldl (fun st item =>
        UpdateBindingSummaryWithLocation item.type
          ⟨registerSpace, item.slot, item.arrayElement,
            defaultGraphicsResourceType⟩ st) st).msgs = st.msgs := by
    intro items
    induction items with
    | nil => intro _ st; rfl
    | cons x tl ih =>
      intro hmem st
      rw [List.foldl_cons, ih (fun i hi => hmem i (List.mem_cons_of_mem x hi)),
        update_msgs_of_valid _ _ _ (h x (hmem x (List.mem_cons_self x tl)))]
  exact key desc.bindings (fun i hi => hi) SummaryState.initial

/-! ### Characterizing per-stage duplicate and overlap detection -/

theorem stageDuplicates_mem_iff_declares {layouts : List LayoutHandle}
    {stage : ShaderType} {loc : BindingLocation} :
    loc ∈ stageDuplicates ((layouts.map (visibleSummary stage)).map
      (fun s => s.bindings.locations)) ↔
      DeclaresSharedLocation layouts stage loc := by
  rw [mem_stageDuplicates, List.map_map, indexedPair_map]
  simp [DeclaresSharedLocation, Function.comp]

theorem anyPairOverlap_iff_class {layouts : List LayoutHandle}
    {stage : ShaderType} {proj : BindingSummary → Range} :
    anyPairOverlap ((layouts.map (visibleSummary stage)).map
      (fun s => proj s.bindings)) = true ↔
      ClassRangeOverlap layouts stage proj := by
  rw [anyPairOverlap_iff, List.map_map, indexedPair_map]
  simp [ClassRangeOverlap, Function.comp]

theorem declares_length {layouts : List LayoutHandle} {stage : ShaderType}
    {loc : BindingLocation} (h : DeclaresSharedLocation layouts stage loc) :
    1 < layouts.length := by
  obtain ⟨i, j, li, lj, hij, hi, hj, -, -⟩ := h
  obtain ⟨hjlen, -⟩ := List.getElem?_eq_some_iff.1 hj
  omega

theorem classRangeOverlap_length {layouts : List LayoutHandle}
    {stage : ShaderType} {proj : BindingSummary → Range}
    (h : ClassRangeOverlap layouts stage proj) : 1 < layouts.length := by
  obtain ⟨i, j, li, lj, hij, hi, hj, -⟩ := h
  obtain ⟨hjlen, -⟩ := List.getElem?_eq_some_iff.1 hj
  omega

theorem notIsEmptyFalse_eq_nil {α : Type} {l : List α}
    (h : ¬ (!l.isEmpty) = true) : l = [] := by
  cases l with
  | nil => rfl
  | cons a t => simp at h

theorem notIsEmptyTrue_ne_nil {α : Type} {l : List α}
    (h : (!l.isEmpty) = true) : l ≠ [] := by
  cases l with
  | nil => simp at h
  | cons a t => simp

theorem checkStage_duplicates_iff {api : GraphicsAPI}
    {layouts : List LayoutHandle} {stage : ShaderType}
    {loc : BindingLocation} :
    loc ∈ (checkStage api layouts stage).duplicates ↔
      DeclaresSharedLocation layouts stage loc := by
  unfold checkStage
  dsimp only
  split
  next hlen =>
    split
    next hne => exact stageDuplicates_mem_iff_declares
    next hne =>
      have hnil := notIsEmptyFalse_eq_nil hne
      try dsimp only
      constructor
      · intro hmem
        split at hmem <;> simp at hmem
      · intro hdecl
        exact absurd (hnil ▸ stageDuplicates_mem_iff_declares.2 hdecl)
          (List.not_mem_nil loc)
  next hlen =>
    try dsimp only
    constructor
    · intro hmem; simp at hmem
    · intro hdecl
      exact absurd (declares_length hdecl) hlen

theorem classes_append_ne_nil {a b c d : Bool} :
    ((if a then [GraphicsResourceType.SRV] else []) ++
     (if b then [GraphicsResourceType.Sampler] else []) ++
     (if c then [GraphicsResourceType.UAV] else []) ++
     (if d then [GraphicsResourceType.CB] else []) ≠ []) ↔
      (a = true ∨ b = true ∨ c = true ∨ d = true) := by
  cases a <;> cases b <;> cases c <;> cases d <;> simp

theorem checkStage_overlapClasses_iff {api : GraphicsAPI}
    {layouts : List LayoutHandle} {stage : ShaderType} :
    (checkStage api layouts stage).overlapClasses ≠ [] ↔
      (api = GraphicsAPI.D3D11 ∧ 1 < layouts.length ∧
       (∀ loc, ¬ DeclaresSharedLocation layouts stage loc) ∧
       (ClassRangeOverlap layouts stage (fun b => b.rangeSRV) ∨
        ClassRangeOverlap layouts stage (fun b => b.rangeSampler) ∨
        ClassRangeOverlap layouts stage (fun b => b.rangeUAV) ∨
        ClassRangeOverlap layouts stage (fun b => b.rangeCB))) := by
  unfold checkStage
  dsimp only
  split
  next hlen =>
    split
    next hne =>
      have hdup : ∃ loc, DeclaresSharedLocation layouts stage loc := by
        obtain ⟨loc, hloc⟩ :=
          List.exists_mem_of_ne_nil _ (notIsEmptyTrue_ne_nil hne)
        exact ⟨loc, stageDuplicates_mem_iff_declares.1 hloc⟩
      try dsimp only
      simp only [ne_eq, not_true_eq_false, false_iff]
      rintro ⟨-, -, hno, -⟩
      obtain ⟨loc, hloc⟩ := hdup
      exact hno loc hloc
    next hne =>
      have hnodup : ∀ loc, ¬ DeclaresSharedLocation layouts stage loc := by
        intro loc hdecl
        exact absurd ((notIsEmptyFalse_eq_nil hne) ▸
          stageDuplicates_mem_iff_declares.2 hdecl) (List.not_mem_nil loc)
      split
      next hapi =>
        have hapi' : api = GraphicsAPI.D3D11 := by simpa using hapi
        try dsimp only
        rw [classes_append_ne_nil]
        rw [anyPairOverlap_iff_class, anyPairOverlap_iff_class,
          anyPairOverlap_iff_class, anyPairOverlap_iff_class]
        constructor
        · intro hover
          exact ⟨hapi', hlen, hnodup, hover⟩
        · rintro ⟨-, -, -, hover⟩
          exact hover
      next hapi =>
        have hapi' : api ≠ GraphicsAPI.D3D11 := by simpa using hapi
        try dsimp only
        simp only [ne_eq, not_true_eq_false, false_iff]
        rintro ⟨h1, -, -, -⟩
        exact hapi' h1
  next hlen =>
    try dsimp only
    simp only [ne_eq, not_true_eq_false, false_iff]
    rintro ⟨-, h2, -, -⟩
    exact hlen h2

/-! ### Entry lists of the pipeline validation result -/

theorem validate_duplicateEntries_eq (api : GraphicsAPI)
    (layouts : List LayoutHandle) (shaders : List ShaderType) :
    (validatePipelineBindingLayouts api layouts shaders).duplicateEntries =
      (shaders.map (fun s => (s, checkStage api layouts s))).filterMap
        (fun p => if !p.2.duplicates.isEmpty then some (p.1, p.2.duplicates)
          else none) := rfl

theorem validate_overlapEntries_eq (api : GraphicsAPI)
    (layouts : List LayoutHandle) (shaders : List ShaderType) :
    (validatePipelineBindingLayouts api layouts shaders).overlapEntries =
      (shaders.map (fun s => (s, checkStage api layouts s))).filterMap
        (fun p => if !p.2.overlapClasses.isEmpty then
          some (p.1, p.2.overlapClasses) else none) := rfl

theorem mem_duplicateEntries_iff {api : GraphicsAPI}
    {layouts : List LayoutHandle} {shaders : List ShaderType}
    {stage : ShaderType} {locs : List BindingLocation} :
    (stage, locs) ∈
        (validatePipelineBindingLayouts api layouts shaders).duplicateEntries ↔
      stage ∈ shaders ∧ locs = (checkStage api layouts stage).duplicates ∧
        locs ≠ [] := by
  rw [validate_duplicateEntries_eq, List.mem_filterMap]
  constructor
  · rintro ⟨p, hp, hfp⟩
    obtain ⟨s, hs, rfl⟩ := List.mem_map.1 hp
    dsimp only at hfp
    split at hfp
    next hne =>
      simp only [Option.some.injEq, Prod.mk.injEq] at hfp
      obtain ⟨rfl, rfl⟩ := hfp
      exact ⟨hs, rfl, notIsEmptyTrue_ne_nil hne⟩
    next => exact absurd hfp (by simp)
  · rintro ⟨hs, rfl, hne⟩
    refine ⟨(stage, checkStage api layouts stage),
      List.mem_map.2 ⟨stage, hs, rfl⟩, ?_⟩
    have : (!(checkStage api layouts stage).duplicates.isEmpty) = true := by
      cases h : (checkStage api layouts stage).duplicates with
      | nil => exact absurd h hne
      | cons a t => simp
    rw [if_pos this]

theorem mem_overlapEntries_iff {api : GraphicsAPI}
    {layouts : List LayoutHandle} {shaders : List ShaderType}
    {stage : ShaderType} {classes : List GraphicsResourceType} :
    (stage, classes) ∈
        (validatePipelineBindingLayouts api layouts shaders).overlapEntries ↔
      stage ∈ shaders ∧ classes = (checkStage api layouts stage).overlapClasses ∧
        classes ≠ [] := by
  rw [validate_overlapEntries_eq, List.mem_filterMap]
  constructor
  · rintro ⟨p, hp, hfp⟩
    obtain ⟨s, hs, rfl⟩ := List.mem_map.1 hp
    dsimp only at hfp
    split at hfp
    next hne =>
      simp only [Option.some.injEq, Prod.mk.injEq] at hfp
      obtain ⟨rfl, rfl⟩ := hfp
      exact ⟨hs, rfl, notIsEmptyTrue_ne_nil hne⟩
    next => exact absurd hfp (by simp)
  · rintro ⟨hs, rfl, hne⟩
    refine ⟨(stage, checkStage api layouts stage),
      List.mem_map.2 ⟨stage, hs, rfl⟩, ?_⟩
    have : (!(checkStage api layouts stage).overlapClasses.isEmpty) = true := by
      cases h : (checkStage api layouts stage).overlapClasses with
      | nil => exact absurd h hne
      | cons a t => simp
    rw [if_pos this]

theorem validate_ok_false_of_duplicates {api : GraphicsAPI}
    {layouts : List LayoutHandle} {shaders : List ShaderType}
    (h : (validatePipelineBindingLayouts api layouts shaders).duplicateEntries
      ≠ []) :
    (validatePipelineBindingLayouts api layouts shaders).ok = false := by
  have hE : (!(validatePipelineBindingLayouts api layouts
      shaders).duplicateEntries.isEmpty) = true := by
    cases hx : (validatePipelineBindingLayouts api layouts
        shaders).duplicateEntries with
    | nil => exact absurd hx h
    | cons a t => simp
  rw [validate_duplicateEntries_eq] at hE
  show (!_) = false
  rw [Bool.not_eq_false']
  simp only [Bool.or_eq_true]
  exact Or.inl (Or.inl (Or.inl (Or.inl (Or.inl (Or.inr hE)))))

/-! ### Claim theorems -/

/-- C5: In pipeline binding-layout validation, for every shader stage of the
pipeline: if two binding layouts both visible to that stage each declare the
same binding location (same register space, slot, array element, and resource
class), a duplicate-binding error naming that stage is produced and pipeline
creation fails; if the locations declared by the visible layouts are pairwise
disjoint, no duplicate-binding error naming that stage is produced. -/
theorem duplicate_binding_detection :
    (∀ (api : GraphicsAPI) (layouts : List LayoutHandle)
       (shaders : List ShaderType) (stage : ShaderType) (i j : Nat)
       (li lj : LayoutHandle) (loc : BindingLocation),
      stage ∈ shaders → i < j →
      layouts[i]? = some li → layouts[j]? = some lj →
      loc ∈ (visibleSummary stage li).bindings.locations →
      loc ∈ (visibleSummary stage lj).bindings.locations →
      (∃ locs, (stage, locs) ∈
          (validatePipelineBindingLayouts api layouts shaders).duplicateEntries
        ∧ loc ∈ locs) ∧
      (validatePipelineBindingLayouts api layouts shaders).ok = false) ∧
    (∀ (api : GraphicsAPI) (layouts : List LayoutHandle)
       (shaders : List ShaderType) (stage : ShaderType),
      (∀ loc, ¬ DeclaresSharedLocation layouts stage loc) →
      ∀ locs, (stage, locs) ∉
        (validatePipelineBindingLayouts api layouts shaders).duplicateEntries)
    := by
  constructor
  · intro api layouts shaders stage i j li lj loc hstage hij hi hj h1 h2
    have hdecl : DeclaresSharedLocation layouts stage loc :=
      ⟨i, j, li, lj, hij, hi, hj, h1, h2⟩
    have hmem : loc ∈ (checkStage api layouts stage).duplicates :=
      checkStage_duplicates_iff.2 hdecl
    have hne : (checkStage api layouts stage).duplicates ≠ [] :=
      List.ne_nil_of_mem hmem
    have hentry : (stage, (checkStage api layouts stage).duplicates) ∈
        (validatePipelineBindingLayouts api layouts shaders).duplicateEntries :=
      mem_duplicateEntries_iff.2 ⟨hstage, rfl, hne⟩
    exact ⟨⟨_, hentry, hmem⟩,
      validate_ok_false_of_duplicates (List.ne_nil_of_mem hentry)⟩
  · intro api layouts shaders stage hno locs hmem
    obtain ⟨hs, rfl, hne⟩ := mem_duplicateEntries_iff.1 hmem
    obtain ⟨loc, hloc⟩ := List.exists_mem_of_ne_nil _ hne
    exact hno loc (checkStage_duplicates_iff.1 hloc)

/-- Witness for C5 at concrete inputs: two layouts, both visible to the
vertex stage, declaring SRV slot 3 in space 0, are reported as duplicates and
fail validation; with disjoint slots 3 and 5 no duplicate entry names the
vertex stage. -/
theorem duplicate_binding_detection_witness :
    ((∃ locs, (ShaderType.Vertex, locs) ∈
        (validatePipelineBindingLayouts GraphicsAPI.D3D12
          [LayoutHandle.layout ⟨[ShaderType.Vertex], 0, false,
            [⟨3, ResourceType.Texture_SRV, 1⟩]⟩,
           LayoutHandle.layout ⟨[ShaderType.Vertex], 0, false,
            [⟨3, ResourceType.Texture_SRV, 1⟩]⟩]
          [ShaderType.Vertex]).duplicateEntries ∧
        (⟨0, 3, 0, GraphicsResourceType.SRV⟩ : BindingLocation) ∈ locs) ∧
      (validatePipelineBindingLayouts GraphicsAPI.D3D12
        [LayoutHandle.layout ⟨[ShaderType.Vertex], 0, false,
          [⟨3, ResourceType.Texture_SRV, 1⟩]⟩,
         LayoutHandle.layout ⟨[ShaderType.Vertex], 0, false,
          [⟨3, ResourceType.Texture_SRV, 1⟩]⟩]
        [ShaderType.Vertex]).ok = false) ∧
    (∀ locs, (ShaderType.Vertex, locs) ∉
      (validatePipelineBindingLayouts GraphicsAPI.D3D12
        [LayoutHandle.layout ⟨[ShaderType.Vertex], 0, false,
          [⟨3, ResourceType.Texture_SRV, 1⟩]⟩,
         LayoutHandle.layout ⟨[ShaderType.Vertex], 0, false,
          [⟨5, ResourceType.Texture_SRV, 1⟩]⟩]
        [ShaderType.Vertex]).duplicateEntries) := by
  constructor
  · exact duplicate_binding_detection.1 GraphicsAPI.D3D12 _ _
      ShaderType.Vertex 0 1 _ _ ⟨0, 3, 0, GraphicsResourceType.SRV⟩
      (by decide) (by decide) rfl rfl (by decide) (by decide)
  · refine duplicate_binding_detection.2 GraphicsAPI.D3D12 _ _
      ShaderType.Vertex ?_
    intro loc hdecl
    obtain ⟨i, j, li, lj, hij, hi, hj, h1, h2⟩ := hdecl
    obtain ⟨hjlen, -⟩ := List.getElem?_eq_some_iff.1 hj
    have hlen2 : j < 2 := by simpa using hjlen
    have hj1 : j = 1 := by omega
    have hi0 : i = 0 := by omega
    subst hj1; subst hi0
    simp only [List.getElem?_cons_zero, List.getElem?_cons_succ,
      Option.some.injEq] at hi hj
    subst hi; subst hj
    rw [show (visibleSummary ShaderType.Vertex
        (LayoutHandle.layout ⟨[ShaderType.Vertex], 0, false,
          [⟨3, ResourceType.Texture_SRV, 1⟩]⟩)).bindings.locations =
        [⟨0, 3, 0, GraphicsResourceType.SRV⟩] from by decide] at h1
    rw [show (visibleSummary ShaderType.Vertex
        (LayoutHandle.layout ⟨[ShaderType.Vertex], 0, false,
          [⟨5, ResourceType.Texture_SRV, 1⟩]⟩)).bindings.locations =
        [⟨0, 5, 0, GraphicsResourceType.SRV⟩] from by decide] at h2
    simp only [List.mem_singleton] at h1 h2
    subst h1
    exact absurd h2 (by decide)

/-- C6: The range-overlap check runs only on the D3D11 backend and only for a
stage where no duplicate bindings were found; an overlap entry for a stage is
produced exactly when, for at least one of the four register classes
(SRV / Sampler / UAV / CB), two layouts' per-class slot ranges satisfy
`Range::overlapsWith` — which requires both ranges non-empty and their closed
intervals `[min, max]` to intersect, never merely that both are non-empty. -/
theorem range_overlap_detection :
    (∀ (api : GraphicsAPI) (layouts : List LayoutHandle)
       (shaders : List ShaderType), api ≠ GraphicsAPI.D3D11 →
      (validatePipelineBindingLayouts api layouts shaders).overlapEntries
        = []) ∧
    (∀ (layouts : List LayoutHandle) (shaders : List ShaderType)
       (stage : ShaderType), stage ∈ shaders →
      ((∃ classes, (stage, classes) ∈
          (validatePipelineBindingLayouts GraphicsAPI.D3D11 layouts
            shaders).overlapEntries) ↔
        (1 < layouts.length ∧
         (∀ loc, ¬ DeclaresSharedLocation layouts stage loc) ∧
         (ClassRangeOverlap layouts stage (fun b => b.rangeSRV) ∨
          ClassRangeOverlap layouts stage (fun b => b.rangeSampler) ∨
          ClassRangeOverlap layouts stage (fun b => b.rangeUAV) ∨
          ClassRangeOverlap layouts stage (fun b => b.rangeCB))))) ∧
    (∀ r o : Range, r.overlapsWith o = true ↔
      (r.empty = false ∧ o.empty = false ∧ o.min ≤ r.max ∧ r.min ≤ o.max))
    := by
  refine ⟨?_, ?_, ?_⟩
  · intro api layouts shaders hapi
    rw [validate_overlapEntries_eq]
    rw [List.filterMap_eq_nil_iff]
    intro p hp
    obtain ⟨s, hs, rfl⟩ := List.mem_map.1 hp
    have hnil : (checkStage api layouts s).overlapClasses = [] := by
      by_contra hx
      exact hapi (checkStage_overlapClasses_iff.1 hx).1
    simp [hnil]
  · intro layouts shaders stage hstage
    constructor
    · rintro ⟨classes, hmem⟩
      obtain ⟨-, rfl, hne⟩ := mem_overlapEntries_iff.1 hmem
      exact (checkStage_overlapClasses_iff.1 hne).2
    · rintro ⟨hlen, hnodup, hover⟩
      have hne : (checkStage GraphicsAPI.D3D11 layouts stage).overlapClasses
          ≠ [] :=
        checkStage_overlapClasses_iff.2 ⟨rfl, hlen, hnodup, hover⟩
      exact ⟨_, mem_overlapEntries_iff.2 ⟨hstage, rfl, hne⟩⟩
  · intro r o
    unfold Range.overlapsWith Range.empty
    constructor
    · intro h
      simp only [Bool.and_eq_true, Bool.not_eq_true', decide_eq_true_eq,
        decide_eq_false_iff_not, Nat.not_lt] at h
      obtain ⟨⟨⟨h1, h2⟩, h3⟩, h4⟩ := h
      refine ⟨?_, ?_, h3, h4⟩
      · simpa using h1
      · simpa using h2
    · rintro ⟨h1, h2, h3, h4⟩
      simp only [Bool.and_eq_true, Bool.not_eq_true', decide_eq_true_eq]
      exact ⟨⟨⟨by simpa using h1, by simpa using h2⟩, h3⟩, h4⟩

/-- Witness for C6 at concrete inputs: on Vulkan no overlap entries are
produced; on D3D11, a layout declaring SRV slots 0 and 5 (range 0..5) and a
layout declaring SRV slot 3 (range 3..3) — disjoint declared locations —
yield a pipeline whose layouts have more than one entry and an actual
`Range::overlapsWith` overlap in the SRV class. -/
theorem range_overlap_detection_witness :
    (validatePipelineBindingLayouts GraphicsAPI.VULKAN
      [LayoutHandle.layout ⟨[ShaderType.Pixel], 0, false,
        [⟨0, ResourceType.Texture_SRV, 1⟩, ⟨5, ResourceType.Texture_SRV, 1⟩]⟩,
       LayoutHandle.layout ⟨[ShaderType.Pixel], 0, false,
        [⟨3, ResourceType.Texture_SRV, 1⟩]⟩]
      [ShaderType.Pixel]).overlapEntries = [] ∧
    (1 < ([LayoutHandle.layout ⟨[ShaderType.Pixel], 0, false,
        [⟨0, ResourceType.Texture_SRV, 1⟩, ⟨5, ResourceType.Texture_SRV, 1⟩]⟩,
       LayoutHandle.layout ⟨[ShaderType.Pixel], 0, false,
        [⟨3, ResourceType.Texture_SRV, 1⟩]⟩] : List LayoutHandle).length ∧
     (ClassRangeOverlap
        [LayoutHandle.layout ⟨[ShaderType.Pixel], 0, false,
          [⟨0, ResourceType.Texture_SRV, 1⟩,
           ⟨5, ResourceType.Texture_SRV, 1⟩]⟩,
         LayoutHandle.layout ⟨[ShaderType.Pixel], 0, false,
          [⟨3, ResourceType.Texture_SRV, 1⟩]⟩]
        ShaderType.Pixel (fun b => b.rangeSRV) ∨
      ClassRangeOverlap
        [LayoutHandle.layout ⟨[ShaderType.Pixel], 0, false,
          [⟨0, ResourceType.Texture_SRV, 1⟩,
           ⟨5, ResourceType.Texture_SRV, 1⟩]⟩,
         LayoutHandle.layout ⟨[ShaderType.Pixel], 0, false,
          [⟨3, ResourceType.Texture_SRV, 1⟩]⟩]
        ShaderType.Pixel (fun b => b.rangeSampler) ∨
      ClassRangeOverlap
        [LayoutHandle.layout ⟨[ShaderType.Pixel], 0, false,
          [⟨0, ResourceType.Texture_SRV, 1⟩,
           ⟨5, ResourceType.Texture_SRV, 1⟩]⟩,
         LayoutHandle.layout ⟨[ShaderType.Pixel], 0, false,
          [⟨3, ResourceType.Texture_SRV, 1⟩]⟩]
        ShaderType.Pixel (fun b => b.rangeUAV) ∨
      ClassRangeOverlap
        [LayoutHandle.layout ⟨[ShaderType.Pixel], 0, false,
          [⟨0, ResourceType.Texture_SRV, 1⟩,
           ⟨5, ResourceType.Texture_SRV, 1⟩]⟩,
         LayoutHandle.layout ⟨[ShaderType.Pixel], 0, false,
          [⟨3, ResourceType.Texture_SRV, 1⟩]⟩]
        ShaderType.Pixel (fun b => b.rangeCB))) := by
  constructor
  · exact range_overlap_detection.1 GraphicsAPI.VULKAN _ _ (by decide)
  · have h := (range_overlap_detection.2.1
      [LayoutHandle.layout ⟨[ShaderType.Pixel], 0, false,
        [⟨0, ResourceType.Texture_SRV, 1⟩, ⟨5, ResourceType.Texture_SRV, 1⟩]⟩,
       LayoutHandle.layout ⟨[ShaderType.Pixel], 0, false,
        [⟨3, ResourceType.Texture_SRV, 1⟩]⟩]
      [ShaderType.Pixel] ShaderType.Pixel (by decide)).1
      ⟨[GraphicsResourceType.SRV], by decide⟩
    exact ⟨h.1, h.2.2⟩

/-! ### createBindingSet structure -/

theorem createBindingSet_fields (dev : DeviceCaps)
    (backend : BindingSetDesc → Option Nat) (ld : BindingLayoutDesc)
    (desc : BindingSetDesc) :
    ((createBindingSet dev backend (LayoutHandle.layout ld)
        desc).declaredNotBound =
      SetDifference (FillBindingLayoutSummary ld).bindings.locations
        (FillBindingSetSummary desc ld.registerSpace).bindings.locations) ∧
    ((createBindingSet dev backend (LayoutHandle.layout ld)
        desc).boundNotDeclared =
      SetDifference
        (FillBindingSetSummary desc ld.registerSpace).bindings.locations
        (FillBindingLayoutSummary ld).bindings.locations) := by
  unfold createBindingSet
  dsimp only
  split <;> exact ⟨rfl, rfl⟩

theorem createBindingSet_failure {dev : DeviceCaps}
    {backend : BindingSetDesc → Option Nat} {ld : BindingLayoutDesc}
    {desc : BindingSetDesc}
    (h : (createBindingSet dev backend (LayoutHandle.layout ld)
        desc).declaredNotBound ≠ [] ∨
      (createBindingSet dev backend (LayoutHandle.layout ld)
        desc).boundNotDeclared ≠ []) :
    (createBindingSet dev backend (LayoutHandle.layout ld) desc).ret = none ∧
    (createBindingSet dev backend (LayoutHandle.layout ld)
      desc).backendCalls = 0 := by
  obtain ⟨e1, e2⟩ := createBindingSet_fields dev backend ld desc
  rw [e1, e2] at h
  unfold createBindingSet
  dsimp only
  split
  next => exact ⟨rfl, rfl⟩
  next hAny =>
    exfalso
    rw [Bool.not_eq_true] at hAny
    simp only [Bool.or_eq_false_iff] at hAny
    obtain ⟨⟨⟨h1, h2⟩, -⟩, -⟩ := hAny
    rw [Bool.not_eq_false'] at h1 h2
    rw [List.isEmpty_iff] at h1 h2
    rcases h with h | h
    · exact h h1
    · exact h h2

theorem createBindingSet_dnb_msg {dev : DeviceCaps}
    {backend : BindingSetDesc → Option Nat} {ld : BindingLayoutDesc}
    {desc : BindingSetDesc}
    (h : (createBindingSet dev backend (LayoutHandle.layout ld)
        desc).declaredNotBound ≠ []) :
    Finding.declaredNotBound
      ((createBindingSet dev backend (LayoutHandle.layout ld)
        desc).declaredNotBound) ∈
      (((createBindingSet dev backend (LayoutHandle.layout ld)
        desc).msgs.map Msg.findings).flatten) := by
  obtain ⟨e1, -⟩ := createBindingSet_fields dev backend ld desc
  rw [e1] at h
  rw [e1]
  unfold createBindingSet
  dsimp only
  have hcond : (!(SetDifference
      (FillBindingLayoutSummary ld).bindings.locations
      (FillBindingSetSummary desc ld.registerSpace).bindings.locations
      ).isEmpty) = true := by
    cases hx : SetDifference (FillBindingLayoutSummary ld).bindings.locations
        (FillBindingSetSummary desc ld.registerSpace).bindings.locations with
    | nil => exact absurd hx h
    | cons a t => simp
  split
  next hAny =>
    simp only [List.map_append, List.flatten_append, List.map_cons,
      List.map_nil, List.flatten_cons, List.flatten_nil, List.append_nil]
    refine List.mem_append.2 (Or.inr ?_)
    simp [hcond]
  next hAny =>
    exfalso
    rw [Bool.not_eq_true] at hAny
    simp only [Bool.or_eq_false_iff] at hAny
    obtain ⟨⟨⟨h1, -⟩, -⟩, -⟩ := hAny
    rw [h1] at hcond
    exact absurd hcond (by decide)

/-- C7: For every `createBindingSet` call with a non-null layout that has a
binding-layout descriptor: the two diagnostic location sets are exactly the
set differences layout-minus-set ("declared not bound") and set-minus-layout
("bound not declared"); whenever the set's locations differ from the layout's
declared locations the call fails without reaching the backend; and when the
set's locations are a strict subset of the layout's, the "declared not bound"
difference is non-empty, the call fails, and the aggregated diagnostic
contains that difference. -/
theorem createBindingSet_location_diffs :
    ∀ (dev : DeviceCaps) (backend : BindingSetDesc → Option Nat)
      (ld : BindingLayoutDesc) (desc : BindingSetDesc),
      ((∀ x, x ∈ (createBindingSet dev backend (LayoutHandle.layout ld)
          desc).declaredNotBound ↔
        (x ∈ (FillBindingLayoutSummary ld).bindings.locations ∧
         x ∉ (FillBindingSetSummary desc ld.registerSpace).bindings.locations))
       ∧
       (∀ x, x ∈ (createBindingSet dev backend (LayoutHandle.layout ld)
          desc).boundNotDeclared ↔
        (x ∈ (FillBindingSetSummary desc ld.registerSpace).bindings.locations ∧
         x ∉ (FillBindingLayoutSummary ld).bindings.locations))) ∧
      ((¬ (∀ x, x ∈ (FillBindingLayoutSummary ld).bindings.locations ↔
          x ∈ (FillBindingSetSummary desc ld.registerSpace).bindings.locations))
        →
        (createBindingSet dev backend (LayoutHandle.layout ld) desc).ret
          = none ∧
        (createBindingSet dev backend (LayoutHandle.layout ld)
          desc).backendCalls = 0) ∧
      ((∀ x, x ∈ (FillBindingSetSummary desc
          ld.registerSpace).bindings.locations →
          x ∈ (FillBindingLayoutSummary ld).bindings.locations) →
       (∃ x, x ∈ (FillBindingLayoutSummary ld).bindings.locations ∧
          x ∉ (FillBindingSetSummary desc ld.registerSpace).bindings.locations)
        →
        (createBindingSet dev backend (LayoutHandle.layout ld)
          desc).declaredNotBound ≠ [] ∧
        (createBindingSet dev backend (LayoutHandle.layout ld) desc).ret
          = none ∧
        Finding.declaredNotBound
          ((createBindingSet dev backend (LayoutHandle.layout ld)
            desc).declaredNotBound) ∈
          (((createBindingSet dev backend (LayoutHandle.layout ld)
            desc).msgs.map Msg.findings).flatten)) := by
  intro dev backend ld desc
  obtain ⟨e1, e2⟩ := createBindingSet_fields dev backend ld desc
  have hmem1 : ∀ x, x ∈ (createBindingSet dev backend
      (LayoutHandle.layout ld) desc).declaredNotBound ↔
      (x ∈ (FillBindingLayoutSummary ld).bindings.locations ∧
       x ∉ (FillBindingSetSummary desc ld.registerSpace).bindings.locations)
    := by
    intro x
    rw [e1]
    exact mem_SetDifference (fill_layout_nodup ld)
  have hmem2 : ∀ x, x ∈ (createBindingSet dev backend
      (LayoutHandle.layout ld) desc).boundNotDeclared ↔
      (x ∈ (FillBindingSetSummary desc ld.registerSpace).bindings.locations ∧
       x ∉ (FillBindingLayoutSummary ld).bindings.locations) := by
    intro x
    rw [e2]
    exact mem_SetDifference (fill_set_nodup desc ld.registerSpace)
  refine ⟨⟨hmem1, hmem2⟩, ?_, ?_⟩
  · intro hdiff
    rw [not_forall] at hdiff
    obtain ⟨x, hx⟩ := hdiff
    by_cases hL : x ∈ (FillBindingLayoutSummary ld).bindings.locations <;>
      by_cases hS : x ∈ (FillBindingSetSummary desc
        ld.registerSpace).bindings.locations
    · exact absurd (iff_of_true hL hS) hx
    · exact createBindingSet_failure
        (Or.inl (List.ne_nil_of_mem ((hmem1 x).2 ⟨hL, hS⟩)))
    · exact createBindingSet_failure
        (Or.inr (List.ne_nil_of_mem ((hmem2 x).2 ⟨hS, hL⟩)))
    · exact absurd (iff_of_false hL hS) hx
  · intro hsub hmiss
    obtain ⟨x, hxL, hxS⟩ := hmiss
    have hx : x ∈ (createBindingSet dev backend (LayoutHandle.layout ld)
        desc).declaredNotBound := (hmem1 x).2 ⟨hxL, hxS⟩
    have hne := List.ne_nil_of_mem hx
    exact ⟨hne, (createBindingSet_failure (Or.inl hne)).1,
      createBindingSet_dnb_msg hne⟩

/-- Witness for C7 at concrete inputs: a layout declaring SRV slots 0 and 1
and a binding set binding only slot 0 — a strict subset — fail with a
non-empty "declared not bound" difference that appears in the aggregated
diagnostic. -/
theorem createBindingSet_location_diffs_witness :
    (createBindingSet ⟨GraphicsAPI.D3D12, true, true⟩ (fun _ => some 7)
      (LayoutHandle.layout ⟨[ShaderType.Pixel], 0, false,
        [⟨0, ResourceType.Texture_SRV, 1⟩, ⟨1, ResourceType.Texture_SRV, 1⟩]⟩)
      ⟨[⟨0, 0, ResourceType.Texture_SRV,
        some (Resource.texture ⟨TextureDimension.Texture2D, 16, 16, 1, 1, 1, 1,
          false, false, false, 0⟩),
        TextureDimension.Unknown, Format.UNKNOWN, ⟨0, 0⟩,
        ⟨0, 1, 0, 1⟩⟩]⟩).declaredNotBound ≠ [] ∧
    (createBindingSet ⟨GraphicsAPI.D3D12, true, true⟩ (fun _ => some 7)
      (LayoutHandle.layout ⟨[ShaderType.Pixel], 0, false,
        [⟨0, ResourceType.Texture_SRV, 1⟩, ⟨1, ResourceType.Texture_SRV, 1⟩]⟩)
      ⟨[⟨0, 0, ResourceType.Texture_SRV,
        some (Resource.texture ⟨TextureDimension.Texture2D, 16, 16, 1, 1, 1, 1,
          false, false, false, 0⟩),
        TextureDimension.Unknown, Format.UNKNOWN, ⟨0, 0⟩,
        ⟨0, 1, 0, 1⟩⟩]⟩).ret = none ∧
    Finding.declaredNotBound
      ((createBindingSet ⟨GraphicsAPI.D3D12, true, true⟩ (fun _ => some 7)
        (LayoutHandle.layout ⟨[ShaderType.Pixel], 0, false,
          [⟨0, ResourceType.Texture_SRV, 1⟩,
           ⟨1, ResourceType.Texture_SRV, 1⟩]⟩)
        ⟨[⟨0, 0, ResourceType.Texture_SRV,
          some (Resource.texture ⟨TextureDimension.Texture2D, 16, 16, 1, 1, 1,
            1, false, false, false, 0⟩),
          TextureDimension.Unknown, Format.UNKNOWN, ⟨0, 0⟩,
          ⟨0, 1, 0, 1⟩⟩]⟩).declaredNotBound) ∈
      (((createBindingSet ⟨GraphicsAPI.D3D12, true, true⟩ (fun _ => some 7)
        (LayoutHandle.layout ⟨[ShaderType.Pixel], 0, false,
          [⟨0, ResourceType.Texture_SRV, 1⟩,
           ⟨1, ResourceType.Texture_SRV, 1⟩]⟩)
        ⟨[⟨0, 0, ResourceType.Texture_SRV,
          some (Resource.texture ⟨TextureDimension.Texture2D, 16, 16, 1, 1, 1,
            1, false, false, false, 0⟩),
          TextureDimension.Unknown, Format.UNKNOWN, ⟨0, 0⟩,
          ⟨0, 1, 0, 1⟩⟩]⟩).msgs.map Msg.findings).flatten) := by
  refine (createBindingSet_location_diffs ⟨GraphicsAPI.D3D12, true, true⟩
    (fun _ => some 7)
    ⟨[ShaderType.Pixel], 0, false,
      [⟨0, ResourceType.Texture_SRV, 1⟩, ⟨1, ResourceType.Texture_SRV, 1⟩]⟩
    ⟨[⟨0, 0, ResourceType.Texture_SRV,
      some (Resource.texture ⟨TextureDimension.Texture2D, 16, 16, 1, 1, 1, 1,
        false, false, false, 0⟩),
      TextureDimension.Unknown, Format.UNKNOWN, ⟨0, 0⟩,
      ⟨0, 1, 0, 1⟩⟩]⟩).2.2 ?_ ?_
  · intro x hx
    rw [show (FillBindingSetSummary ⟨[⟨0, 0, ResourceType.Texture_SRV,
        some (Resource.texture ⟨TextureDimension.Texture2D, 16, 16, 1, 1, 1, 1,
          false, false, false, 0⟩),
        TextureDimension.Unknown, Format.UNKNOWN, ⟨0, 0⟩,
        ⟨0, 1, 0, 1⟩⟩]⟩ (0 : Nat)).bindings.locations =
      [⟨0, 0, 0, GraphicsResourceType.SRV⟩] from by decide] at hx
    simp only [List.mem_singleton] at hx
    subst hx
    decide
  · exact ⟨⟨0, 1, 0, GraphicsResourceType.SRV⟩, by decide, by decide⟩

/-! ### Case analyses of the creation operations -/

theorem createTexture_cases (dev : DeviceCaps) (backend : TextureDesc → Option Nat)
    (d : TextureDesc) :
    ((createTexture dev backend d).msgs = [] ∧
     (createTexture dev backend d).backendCalls = 1 ∧
     (createTexture dev backend d).ret = backend d) ∨
    ((createTexture dev backend d).msgs ≠ [] ∧
     (createTexture dev backend d).backendCalls = 0 ∧
     (createTexture dev backend d).ret = none) := by
  unfold createTexture
  split
  next => exact Or.inr ⟨by simp, rfl, rfl⟩
  next =>
    split
    next => exact Or.inr ⟨by simp, rfl, rfl⟩
    next =>
      dsimp only
      split
      next hAny =>
        refine Or.inr ⟨?_, rfl, rfl⟩
        simp only [Bool.or_eq_true] at hAny
        rcases hAny with ((((((h | h) | h) | h) | h) | h) | h) <;> simp [h]
      next hAny => exact Or.inl ⟨rfl, rfl, rfl⟩

theorem createBindingSet_cases (dev : DeviceCaps)
    (backend : BindingSetDesc → Option Nat) (ld : BindingLayoutDesc)
    (desc : BindingSetDesc)
    (h1 : ∀ item ∈ ld.bindings, item.type ≠ ResourceType.None ∧
      item.type ≠ ResourceType.Count)
    (h2 : ∀ item ∈ desc.bindings, item.type ≠ ResourceType.None ∧
      item.type ≠ ResourceType.Count) :
    ((createBindingSet dev backend (LayoutHandle.layout ld)
        desc).backendCalls = 1 ∧
     (createBindingSet dev backend (LayoutHandle.layout ld) desc).msgs = []) ∨
    ((createBindingSet dev backend (LayoutHandle.layout ld)
        desc).backendCalls = 0 ∧
     (createBindingSet dev backend (LayoutHandle.layout ld)
        desc).msgs.length = 1) := by
  unfold createBindingSet
  dsimp only
  split
  next =>
    refine Or.inr ⟨rfl, ?_⟩
    rw [fill_layout_msgs_nil ld h1, fill_set_msgs_nil desc ld.registerSpace h2]
    rfl
  next =>
    refine Or.inl ⟨rfl, ?_⟩
    rw [fill_layout_msgs_nil ld h1, fill_set_msgs_nil desc ld.registerSpace h2]
    rfl

theorem writeDescriptorTable_cases (dev : DeviceCaps)
    (backendWrite : BindingSetItem → Bool) (item : BindingSetItem) :
    ((writeDescriptorTable dev backendWrite item).backendCalls = 1 ∧
     (writeDescriptorTable dev backendWrite item).msgs = []) ∨
    ((writeDescriptorTable dev backendWrite item).backendCalls = 0 ∧
     (writeDescriptorTable dev backendWrite item).msgs.length = 1) := by
  unfold writeDescriptorTable
  dsimp only
  split
  next => exact Or.inr ⟨rfl, rfl⟩
  next => exact Or.inl ⟨rfl, rfl⟩

/-- C1 counterexample: `createAccelStruct` with a top-level descriptor
carrying the AllowCompaction flag returns a null handle, but the wrapped
device's `createAccelStruct` has already been invoked once — not zero
times. -/
theorem createAccelStruct_invokes_backend_on_failing_desc :
    (createAccelStruct (fun _ => some (Resource.accelStruct
        ⟨true, ⟨false, true⟩, 0, false⟩))
      ⟨true, ⟨false, true⟩, 0, false⟩).ret = none ∧
    (createAccelStruct (fun _ => some (Resource.accelStruct
        ⟨true, ⟨false, true⟩, 0, false⟩))
      ⟨true, ⟨false, true⟩, 0, false⟩).backendCalls = 1 := by
  exact ⟨rfl, rfl⟩

/-- C1 (amended): `createTexture` never invokes the backend's `createTexture`
on a failing path and returns null; `createAccelStruct`, however, always
invokes the backend's `createAccelStruct` exactly once — before validating —
and a descriptor that is top-level with AllowCompaction, or has both
AllowUpdate and AllowCompaction, still returns a null handle after that one
backend invocation. -/
theorem validation_failure_backend_invocations :
    (∀ (dev : DeviceCaps) (backend : TextureDesc → Option Nat)
       (d : TextureDesc),
      (createTexture dev backend d).msgs ≠ [] →
      (createTexture dev backend d).backendCalls = 0 ∧
      (createTexture dev backend d).ret = none) ∧
    (∀ (backend : AccelStructDesc → Option Resource) (desc : AccelStructDesc),
      (createAccelStruct backend desc).backendCalls = 1) ∧
    (∀ (backend : AccelStructDesc → Option Resource) (desc : AccelStructDesc),
      ((desc.buildFlags.allowCompaction && desc.isTopLevel) = true ∨
       (desc.buildFlags.allowUpdate && desc.buildFlags.allowCompaction)
         = true) →
      (createAccelStruct backend desc).ret = none) := by
  refine ⟨?_, ?_, ?_⟩
  · intro dev backend d h
    rcases createTexture_cases dev backend d with ⟨h1, -, -⟩ | ⟨-, h2, h3⟩
    · exact absurd h1 h
    · exact ⟨h2, h3⟩
  · intro backend desc
    unfold createAccelStruct
    cases hb : backend desc
    · rfl
    · dsimp only
      split
      · rfl
      · split <;> rfl
  · intro backend desc h
    unfold createAccelStruct
    cases hb : backend desc
    · rfl
    · dsimp only
      rcases h with h | h
      · rw [if_pos h]
      · split
        · rfl
        · rfl

/-- Witness for C1 at concrete inputs: a 1-D texture descriptor with height 2
fails with zero backend invocations; a failing acceleration-structure
descriptor still incurs exactly one backend invocation. -/
theorem validation_failure_backend_invocations_witness :
    ((createTexture ⟨GraphicsAPI.D3D12, true, true⟩ (fun _ => some 0)
      ⟨TextureDimension.Texture1D, 4, 2, 1, 1, 1, 1, false, false, false,
        0⟩).backendCalls = 0 ∧
     (createTexture ⟨GraphicsAPI.D3D12, true, true⟩ (fun _ => some 0)
      ⟨TextureDimension.Texture1D, 4, 2, 1, 1, 1, 1, false, false, false,
        0⟩).ret = none) ∧
    (createAccelStruct (fun _ => some Resource.sampler)
      ⟨false, ⟨true, true⟩, 0, false⟩).backendCalls = 1 ∧
    (createAccelStruct (fun _ => some Resource.sampler)
      ⟨false, ⟨true, true⟩, 0, false⟩).ret = none :=
  ⟨validation_failure_backend_invocations.1 _ _ _ (by decide),
   validation_failure_backend_invocations.2.1 _ _,
   validation_failure_backend_invocations.2.2 _ _ (Or.inr (by decide))⟩

/-- C2 counterexample: a 1-D texture descriptor violating three rules at once
(height ≠ 1, arraySize ≠ 1, invalid sampleCount) fails and invokes the
message sink three times — once per violated rule — not exactly once. -/
theorem createTexture_three_sink_invocations :
    (createTexture ⟨GraphicsAPI.D3D12, true, true⟩ (fun _ => some 0)
      ⟨TextureDimension.Texture1D, 4, 2, 1, 3, 1, 5, false, false, false,
        0⟩).ret = none ∧
    (createTexture ⟨GraphicsAPI.D3D12, true, true⟩ (fun _ => some 0)
      ⟨TextureDimension.Texture1D, 4, 2, 1, 3, 1, 5, false, false, false,
        0⟩).msgs.length = 3 ∧
    (createTexture ⟨GraphicsAPI.D3D12, true, true⟩ (fun _ => some 0)
      ⟨TextureDimension.Texture1D, 4, 2, 1, 3, 1, 5, false, false, false,
        0⟩).msgs.length ≠ 1 := by
  exact ⟨rfl, rfl, by decide⟩

/-- C2 (amended): operations that accumulate their findings into one error
stream — `createBindingSet` (for items of recognized resource types) and
`writeDescriptorTable` — invoke the sink exactly once per failing call;
`createTexture` instead invokes the sink once per violated rule, so the
three-violation descriptor invokes it three times. -/
theorem diagnostic_sink_invocation_counts :
    (∀ (dev : DeviceCaps) (backend : BindingSetDesc → Option Nat)
       (ld : BindingLayoutDesc) (desc : BindingSetDesc),
      (∀ item ∈ ld.bindings, item.type ≠ ResourceType.None ∧
        item.type ≠ ResourceType.Count) →
      (∀ item ∈ desc.bindings, item.type ≠ ResourceType.None ∧
        item.type ≠ ResourceType.Count) →
      (createBindingSet dev backend (LayoutHandle.layout ld)
        desc).backendCalls = 0 →
      (createBindingSet dev backend (LayoutHandle.layout ld)
        desc).msgs.length = 1) ∧
    (∀ (dev : DeviceCaps) (backendWrite : BindingSetItem → Bool)
       (item : BindingSetItem),
      (writeDescriptorTable dev backendWrite item).backendCalls = 0 →
      (writeDescriptorTable dev backendWrite item).msgs.length = 1) ∧
    ((createTexture ⟨GraphicsAPI.D3D12, true, true⟩ (fun _ => some 0)
      ⟨TextureDimension.Texture1D, 4, 2, 1, 3, 1, 5, false, false, false,
        0⟩).msgs.length = 3) := by
  refine ⟨?_, ?_, rfl⟩
  · intro dev backend ld desc h1 h2 hcalls
    rcases createBindingSet_cases dev backend ld desc h1 h2 with
      ⟨hc, -⟩ | ⟨-, hl⟩
    · rw [hcalls] at hc
      exact absurd hc (by decide)
    · exact hl
  · intro dev backendWrite item hcalls
    rcases writeDescriptorTable_cases dev backendWrite item with
      ⟨hc, -⟩ | ⟨-, hl⟩
    · rw [hcalls] at hc
      exact absurd hc (by decide)
    · exact hl

/-- Witness for C2 at concrete inputs: a binding set missing a declared
location fails with exactly one sink invocation; a push-constant item written
to a descriptor table fails with exactly one sink invocation. -/
theorem diagnostic_sink_invocation_counts_witness :
    (createBindingSet ⟨GraphicsAPI.D3D12, true, true⟩ (fun _ => some 7)
      (LayoutHandle.layout ⟨[ShaderType.Pixel], 0, false,
        [⟨0, ResourceType.Texture_SRV, 1⟩, ⟨1, ResourceType.Texture_SRV, 1⟩]⟩)
      ⟨[]⟩).msgs.length = 1 ∧
    (writeDescriptorTable ⟨GraphicsAPI.D3D12, true, true⟩ (fun _ => true)
      ⟨0, 0, ResourceType.PushConstants, none, TextureDimension.Unknown,
        Format.UNKNOWN, ⟨0, 16⟩, ⟨0, 1, 0, 1⟩⟩).msgs.length = 1 :=
  ⟨diagnostic_sink_invocation_counts.1 _ _ _ _ (by decide) (by decide)
    (by decide),
   diagnostic_sink_invocation_counts.2.1 _ _ _ (by decide)⟩

/-- C3 (code bug): on the D3D12 backend,
`createSamplerFeedbackForNativeTexture` calls itself instead of the wrapped
device, so for every finite recursion budget it diverges, emits no message,
and never invokes the backend — it cannot forward the call exactly once and
return as every other operation does. -/
theorem createSamplerFeedbackForNativeTexture_diverges_on_d3d12 :
    ∀ (dev : DeviceCaps) (fuel : Nat), dev.graphicsAPI = GraphicsAPI.D3D12 →
      createSamplerFeedbackForNativeTexture dev fuel =
        ⟨ExecOutcome.diverged, [], 0⟩ := by
  intro dev fuel h
  induction fuel with
  | zero =>
    unfold createSamplerFeedbackForNativeTexture
    rw [if_neg (by simp [h])]
  | succ f ih =>
    unfold createSamplerFeedbackForNativeTexture
    rw [if_neg (by simp [h])]
    exact ih

/-- Witness for C3 at a concrete input: on a D3D12 device with recursion
budget 5 the call diverges without reaching the backend. -/
theorem createSamplerFeedbackForNativeTexture_diverges_on_d3d12_witness :
    createSamplerFeedbackForNativeTexture ⟨GraphicsAPI.D3D12, true, true⟩ 5 =
      ⟨ExecOutcome.diverged, [], 0⟩ :=
  createSamplerFeedbackForNativeTexture_diverges_on_d3d12
    ⟨GraphicsAPI.D3D12, true, true⟩ 5 rfl

/-- C4 counterexample: a StructuredBuffer_SRV binding item with a null
resource handle is accepted by `validateBindingSetItem` on the Vulkan
backend, although the claim says structured buffers reject a null resource on
every backend. -/
theorem null_structured_buffer_accepted_on_vulkan :
    (validateBindingSetItem ⟨GraphicsAPI.VULKAN, true, true⟩ false
      ⟨0, 0, ResourceType.StructuredBuffer_SRV, none, TextureDimension.Unknown,
        Format.UNKNOWN, ⟨0, 0⟩, ⟨0, 1, 0, 1⟩⟩).1 = true := by
  decide

/-- C4 (amended): for a binding item with a null resource handle,
`validateBindingSetItem` accepts it exactly when: the item is a
sampler-feedback UAV; or a typed buffer view (on every backend); or any
buffer view class on the Vulkan backend; or a push-constant item outside a
descriptor table with nonzero size (which must be null); or a None item
inside a descriptor table.  Textures, samplers, and acceleration structures
reject null on every backend, and non-typed buffer views reject null on the
non-Vulkan backends. -/
theorem validateBindingSetItem_null_resource_policy :
    ∀ (dev : DeviceCaps) (isDescriptorTable : Bool) (binding : BindingSetItem),
      binding.resourceHandle = none →
      (validateBindingSetItem dev isDescriptorTable binding).1 =
        (match binding.type with
         | ResourceType.None => isDescriptorTable
         | ResourceType.SamplerFeedbackTexture_UAV => true
         | ResourceType.TypedBuffer_SRV => true
         | ResourceType.TypedBuffer_UAV => true
         | ResourceType.StructuredBuffer_SRV =>
            dev.graphicsAPI == GraphicsAPI.VULKAN
         | ResourceType.StructuredBuffer_UAV =>
            dev.graphicsAPI == GraphicsAPI.VULKAN
         | ResourceType.RawBuffer_SRV =>
            dev.graphicsAPI == GraphicsAPI.VULKAN
         | ResourceType.RawBuffer_UAV =>
            dev.graphicsAPI == GraphicsAPI.VULKAN
         | ResourceType.ConstantBuffer =>
            dev.graphicsAPI == GraphicsAPI.VULKAN
         | ResourceType.VolatileConstantBuffer =>
            dev.graphicsAPI == GraphicsAPI.VULKAN
         | ResourceType.PushConstants =>
            !isDescriptorTable && binding.range.byteSize != 0
         | _ => false) := by
  intro dev isDT binding h
  obtain ⟨g, vr, cbr⟩ := dev
  obtain ⟨slot, ae, ty, rh, dim, fmt, rg, sr⟩ := binding
  dsimp only at h
  subst h
  cases ty <;> cases isDT <;> cases g <;>
    first
      | rfl
      | (simp [validateBindingSetItem]; done)
      | (by_cases hbs : rg.byteSize = 0 <;>
          simp [validateBindingSetItem, hbs])

/-- Witness for C4 at a concrete input: a sampler item with a null resource
handle is rejected on D3D12. -/
theorem validateBindingSetItem_null_resource_policy_witness :
    (validateBindingSetItem ⟨GraphicsAPI.D3D12, true, true⟩ false
      ⟨0, 0, ResourceType.Sampler, none, TextureDimension.Unknown,
        Format.UNKNOWN, ⟨0, 0⟩, ⟨0, 1, 0, 1⟩⟩).1 = false := by
  have h := validateBindingSetItem_null_resource_policy
    ⟨GraphicsAPI.D3D12, true, true⟩ false
    ⟨0, 0, ResourceType.Sampler, none, TextureDimension.Unknown,
      Format.UNKNOWN, ⟨0, 0⟩, ⟨0, 1, 0, 1⟩⟩ rfl
  simpa using h

/-- C8 counterexample: a volatile buffer descriptor satisfying everything the
claim lists (constant buffer, maxVersions 1, cpuAccess None, no usage flags)
but with keepInitialState = true and initialState = Unknown is rejected, so
it is not forwarded to the wrapped device as the claim asserts. -/
theorem volatile_buffer_keepInitialState_rejected :
    (createBuffer ⟨GraphicsAPI.D3D12, true, true⟩ (fun _ => some 0)
      ⟨256, 0, Format.UNKNOWN, false, false, false, false, false, true, true,
        false, false, false, false, false, 1, CpuAccessMode.none, true,
        0⟩).ret = none ∧
    (createBuffer ⟨GraphicsAPI.D3D12, true, true⟩ (fun _ => some 0)
      ⟨256, 0, Format.UNKNOWN, false, false, false, false, false, true, true,
        false, false, false, false, false, 1, CpuAccessMode.none, true,
        0⟩).backendCalls = 0 := by
  exact ⟨rfl, rfl⟩

/-- C8 (amended): a volatile buffer descriptor fails if it is not a constant
buffer, has maxVersions = 0, a CPU access mode other than None, or any of the
listed usage flags; a volatile descriptor that is a constant buffer with
maxVersions = 1, cpuAccess = None, none of the listed usage flags, and whose
keepInitialState flag — if set — comes with a known initial state, passes
validation and is forwarded to the wrapped device exactly once. -/
theorem createBuffer_volatile_rules :
    (∀ (dev : DeviceCaps) (backend : BufferDesc → Option Nat)
       (d : BufferDesc), d.isVolatile = true →
      (d.isConstantBuffer = false ∨ d.maxVersions = 0 ∨
       d.cpuAccess ≠ CpuAccessMode.none ∨ d.isVertexBuffer = true ∨
       d.isIndexBuffer = true ∨ d.isDrawIndirectArgs = true ∨
       d.canHaveUAVs = true ∨ d.isAccelStructBuildInput = true ∨
       d.isAccelStructStorage = true ∨ d.isShaderBindingTable = true ∨
       d.isVirtual = true) →
      (createBuffer dev backend d).ret = none ∧
      (createBuffer dev backend d).backendCalls = 0) ∧
    (∀ (dev : DeviceCaps) (backend : BufferDesc → Option Nat)
       (d : BufferDesc), d.isVolatile = true → d.isConstantBuffer = true →
      d.maxVersions = 1 → d.cpuAccess = CpuAccessMode.none →
      d.isVertexBuffer = false → d.isIndexBuffer = false →
      d.isDrawIndirectArgs = false → d.canHaveUAVs = false →
      d.isAccelStructBuildInput = false → d.isAccelStructStorage = false →
      d.isShaderBindingTable = false → d.isVirtual = false →
      (d.keepInitialState = true → d.initialState ≠ ResourceStates.Unknown) →
      (createBuffer dev backend d).ret = backend d ∧
      (createBuffer dev backend d).backendCalls = 1) := by
  constructor
  · intro dev backend d hvol hbad
    unfold createBuffer
    split
    next => exact ⟨rfl, rfl⟩
    next h1 =>
      split
      next => exact ⟨rfl, rfl⟩
      next h2 =>
        split
        next => exact ⟨rfl, rfl⟩
        next h3 =>
          split
          next => exact ⟨rfl, rfl⟩
          next h4 =>
            split
            next => exact ⟨rfl, rfl⟩
            next h5 =>
              split
              next => exact ⟨rfl, rfl⟩
              next h6 =>
                exfalso
                simp only [hvol, Bool.true_and, Bool.not_eq_true,
                  Bool.or_eq_true, not_or, Bool.not_eq_false] at h1 h2 h3 h4
                rcases hbad with h | h | h | h | h | h | h | h | h | h | h <;>
                  simp_all
  · intro dev backend d hvol hcb hmv hcpu hvb hib hdi hu habi hass hsbt hvirt
      hkeep
    have hks : (d.keepInitialState &&
        d.initialState == ResourceStates.Unknown) = false := by
      cases hk : d.keepInitialState
      · simp
      · have hne := hkeep hk
        simp [hne]
    simp [createBuffer, hvol, hcb, hmv, hcpu, hvb, hib, hdi, hu, habi, hass,
      hsbt, hvirt, hks]

/-- Witness for C8 at concrete inputs: the volatile vertex-buffer descriptor
fails with zero backend calls; the well-formed volatile constant-buffer
descriptor is forwarded exactly once. -/
theorem createBuffer_volatile_rules_witness :
    ((createBuffer ⟨GraphicsAPI.D3D12, true, true⟩ (fun _ => some 3)
      ⟨256, 0, Format.UNKNOWN, false, false, false, true, false, true, true,
        false, false, false, false, false, 1, CpuAccessMode.none, false,
        0⟩).ret = none ∧
     (createBuffer ⟨GraphicsAPI.D3D12, true, true⟩ (fun _ => some 3)
      ⟨256, 0, Format.UNKNOWN, false, false, false, true, false, true, true,
        false, false, false, false, false, 1, CpuAccessMode.none, false,
        0⟩).backendCalls = 0) ∧
    ((createBuffer ⟨GraphicsAPI.D3D12, true, true⟩ (fun _ => some 3)
      ⟨256, 0, Format.UNKNOWN, false, false, false, false, false, true, true,
        false, false, false, false, false, 1, CpuAccessMode.none, false,
        0⟩).ret = some 3 ∧
     (createBuffer ⟨GraphicsAPI.D3D12, true, true⟩ (fun _ => some 3)
      ⟨256, 0, Format.UNKNOWN, false, false, false, false, false, true, true,
        false, false, false, false, false, 1, CpuAccessMode.none, false,
        0⟩).backendCalls = 1) := by
  constructor
  · exact createBuffer_volatile_rules.1 _ _ _ (by decide)
      (Or.inr (Or.inr (Or.inr (Or.inl (by decide)))))
  · have h := createBuffer_volatile_rules.2 ⟨GraphicsAPI.D3D12, true, true⟩
      (fun _ => some 3)
      ⟨256, 0, Format.UNKNOWN, false, false, false, false, false, true, true,
        false, false, false, false, false, 1, CpuAccessMode.none, false, 0⟩
      rfl rfl rfl rfl rfl rfl rfl rfl rfl rfl rfl rfl
      (fun hk => absurd hk (by decide))
    exact h

/-- C9: an acceleration structure successfully created through the decorator
is a wrapper whose unwrap yields exactly the handle the wrapped device
returned; unwrapping any object that is not a decorator wrapper — including
null — returns it unchanged. -/
theorem accelStruct_wrap_unwrap_roundtrip :
    (∀ (backend : AccelStructDesc → Option Resource) (desc : AccelStructDesc)
       (h : Resource),
      backend desc = some h →
      (desc.buildFlags.allowCompaction && desc.isTopLevel) = false →
      (desc.buildFlags.allowUpdate && desc.buildFlags.allowCompaction)
        = false →
      (createAccelStruct backend desc).ret =
        some (Resource.accelStructWrapper h desc.isTopLevel
          desc.buildFlags.allowUpdate desc.buildFlags.allowCompaction
          desc.topLevelMaxInstances) ∧
      unwrapResource (createAccelStruct backend desc).ret = some h) ∧
    (∀ r : Resource,
      (∀ (u : Resource) (tl up cp : Bool) (mi : Nat),
        r ≠ Resource.accelStructWrapper u tl up cp mi) →
      unwrapResource (some r) = some r) ∧
    unwrapResource none = none := by
  refine ⟨?_, ?_, rfl⟩
  · intro backend desc h hb h1 h2
    unfold createAccelStruct
    rw [hb]
    dsimp only
    rw [if_neg (by simp [h1]), if_neg (by simp [h2])]
    exact ⟨rfl, rfl⟩
  · intro r hr
    cases r
    · rfl
    · rfl
    · rfl
    · rfl
    · exact absurd rfl (hr _ _ _ _ _)

/-- Witness for C9 at concrete inputs: wrapping then unwrapping recovers the
backend handle, and a plain backend resource passes through unwrap
unchanged. -/
theorem accelStruct_wrap_unwrap_roundtrip_witness :
    ((createAccelStruct (fun _ => some (Resource.accelStruct
        ⟨false, ⟨false, false⟩, 0, false⟩))
      ⟨false, ⟨false, false⟩, 4, false⟩).ret =
      some (Resource.accelStructWrapper
        (Resource.accelStruct ⟨false, ⟨false, false⟩, 0, false⟩)
        false false false 4) ∧
     unwrapResource (createAccelStruct (fun _ => some (Resource.accelStruct
        ⟨false, ⟨false, false⟩, 0, false⟩))
      ⟨false, ⟨false, false⟩, 4, false⟩).ret =
      some (Resource.accelStruct ⟨false, ⟨false, false⟩, 0, false⟩)) ∧
    unwrapResource (some Resource.sampler) = some Resource.sampler :=
  ⟨accelStruct_wrap_unwrap_roundtrip.1 _ _ _ rfl (by decide) (by decide),
   accelStruct_wrap_unwrap_roundtrip.2.1 Resource.sampler
     (fun u tl up cp mi h => Resource.noConfusion h)⟩

/-- C10: in `bindTextureMemory`, `bindBufferMemory` and
`bindAccelStructMemory` (virtual resource, non-null heap), the "does not fit"
rejection occurs exactly when `(offset + requiredSize) mod 2^64` exceeds the
heap capacity — the sum is computed in wrapping unsigned 64-bit arithmetic —
so an offset and required size whose true sum exceeds `2^64` can pass the
check and be forwarded to the backend. -/
theorem bindMemory_wrapping_fit_check :
    (∀ (td : TextureDesc) (hd : HeapDesc) (offset : Nat)
       (memReq : MemoryRequirements) (bb : Bool), td.isVirtual = true →
      (errMsg Finding.doesNotFit ∈
          (bindTextureMemory (some td) (some hd) offset memReq bb).msgs ↔
        hd.capacity < (offset + memReq.size) % c_Uint64Modulus)) ∧
    (∀ (bd : BufferDesc) (hd : HeapDesc) (offset : Nat)
       (memReq : MemoryRequirements) (bb : Bool), bd.isVirtual = true →
      (errMsg Finding.doesNotFit ∈
          (bindBufferMemory (some bd) (some hd) offset memReq bb).msgs ↔
        hd.capacity < (offset + memReq.size) % c_Uint64Modulus)) ∧
    (∀ (ad : AccelStructDesc) (hd : HeapDesc) (offset : Nat)
       (memReq : MemoryRequirements) (bb : Bool), ad.isVirtual = true →
      (errMsg Finding.doesNotFit ∈
          (bindAccelStructMemory (some (Resource.accelStruct ad)) (some hd)
            offset memReq bb).msgs ↔
        hd.capacity < (offset + memReq.size) % c_Uint64Modulus)) ∧
    ((bindTextureMemory
      (some ⟨TextureDimension.Texture2D, 16, 16, 1, 1, 1, 1, false, true,
        false, 0⟩)
      (some ⟨16⟩) (2 ^ 64 - 1) ⟨2, 0⟩ true).ret = true ∧
     (bindTextureMemory
      (some ⟨TextureDimension.Texture2D, 16, 16, 1, 1, 1, 1, false, true,
        false, 0⟩)
      (some ⟨16⟩) (2 ^ 64 - 1) ⟨2, 0⟩ true).backendCalls = 1) ∧
    ((bindBufferMemory
      (some ⟨256, 0, Format.UNKNOWN, false, false, false, false, false, false,
        false, false, false, false, false, true, 0, CpuAccessMode.none, false,
        0⟩)
      (some ⟨16⟩) (2 ^ 64 - 1) ⟨2, 0⟩ true).ret = true ∧
     (bindBufferMemory
      (some ⟨256, 0, Format.UNKNOWN, false, false, false, false, false, false,
        false, false, false, false, false, true, 0, CpuAccessMode.none, false,
        0⟩)
      (some ⟨16⟩) (2 ^ 64 - 1) ⟨2, 0⟩ true).backendCalls = 1) ∧
    ((bindAccelStructMemory
      (some (Resource.accelStruct ⟨false, ⟨false, false⟩, 0, true⟩))
      (some ⟨16⟩) (2 ^ 64 - 1) ⟨2, 0⟩ true).ret = true ∧
     (bindAccelStructMemory
      (some (Resource.accelStruct ⟨false, ⟨false, false⟩, 0, true⟩))
      (some ⟨16⟩) (2 ^ 64 - 1) ⟨2, 0⟩ true).backendCalls = 1) := by
  refine ⟨?_, ?_, ?_, by decide, by decide, by decide⟩
  · intro td hd offset memReq bb hvirt
    unfold bindTextureMemory
    dsimp only
    rw [if_neg (by simp [hvirt])]
    split
    next hfit =>
      simp only [List.mem_singleton]
      exact iff_of_true trivial hfit
    next hfit =>
      split
      next => exact iff_of_false (by decide) hfit
      next => exact iff_of_false (by simp) hfit
  · intro bd hd offset memReq bb hvirt
    unfold bindBufferMemory
    dsimp only
    rw [if_neg (by simp [hvirt])]
    split
    next hfit =>
      simp only [List.mem_singleton]
      exact iff_of_true trivial hfit
    next hfit =>
      split
      next => exact iff_of_false (by decide) hfit
      next => exact iff_of_false (by simp) hfit
  · intro ad hd offset memReq bb hvirt
    unfold bindAccelStructMemory
    dsimp only
    rw [if_neg (by simp [hvirt])]
    split
    next hfit =>
      simp only [List.mem_singleton]
      exact iff_of_true trivial hfit
    next hfit =>
      split
      next => exact iff_of_false (by decide) hfit
      next => exact iff_of_false (by simp) hfit

/-- Witness for C10 at a concrete input: a virtual texture of required size 1
bound at offset 0 into a zero-capacity heap is rejected as not fitting. -/
theorem bindMemory_wrapping_fit_check_witness :
    errMsg Finding.doesNotFit ∈
      (bindTextureMemory
        (some ⟨TextureDimension.Texture2D, 16, 16, 1, 1, 1, 1, false, true,
          false, 0⟩)
        (some ⟨0⟩) 0 ⟨1, 0⟩ true).msgs :=
  (bindMemory_wrapping_fit_check.1 _ _ 0 ⟨1, 0⟩ true rfl).2 (by decide)
